import Mathlib

/-!
Verification of the range-keyed adaptive tree ("maple tree") of this
repository against its natural-language specification.

The development is a shallow embedding of `src/lib/maple_tree.c` and
`src/include/linux/maple_tree.h` (64-bit configuration, `NODE256`):

* machine words (`unsigned long`) are modelled as `Nat` with the modulus
  `W = 2^64` applied exactly where C arithmetic can wrap;
* `unsigned int` quantities (the tree flags word) use the modulus
  `FLAGW = 2^32`;
* C `int` results are modelled as `Int` via two's-complement truncation
  (`toCInt`), matching the LP64 ABI under which the kernel builds;
* pointers are modelled as word values: entries, encoded node pointers and
  sentinels are all machine words exactly as in the C source, and the node
  pool is a heap of node records addressed by 4096-aligned word addresses;
* fallible or only partially modelled executions return `Option`; a `none`
  result means the execution would enter code that is outside the modelled
  fragment (the multi-level split/rebalance/spanning-store engines), so any
  theorem that asserts a `some` result certifies that the modelled execution
  stayed entirely inside faithfully translated code.

Functions keep the names of the C functions they translate.  Helper
definitions used by the xarray tagging scheme (`include/linux/xarray.h` is
not part of the sources under verification) are modelled from the spec's
description of the companion indexed-array structure and are marked as such.
-/

namespace MapleCheck

/-- Word modulus for `unsigned long` (64-bit build). -/
def W : Nat := 2 ^ 64

/-- ULONG_MAX, the top of the index space (the spec writes it UINT_MAX). -/
def ULONG_MAX : Nat := W - 1

/-- Modulus for `unsigned int` quantities such as the tree flags word. -/
def FLAGW : Nat := 2 ^ 32

/-- Two's-complement reading of a 64-bit word as a signed value. -/
def toSigned (w : Nat) : Int :=
  if w < 2 ^ 63 then (w : Int) else (w : Int) - (W : Int)

/-- Truncation of a 64-bit word to a C `int` (32-bit, two's complement),
the conversion applied when an `unsigned long` is returned from a function
declared `int`. -/
def toCInt (w : Nat) : Int :=
  let m : Nat := w % 2 ^ 32
  if m < 2 ^ 31 then (m : Int) else (m : Int) - (2 ^ 32 : Int)

/-- Reading of an `Int` as an unsigned 64-bit word (two's complement). -/
def natOfInt (i : Int) : Nat := (i % (W : Int)).toNat

/-- Modelled from the spec: the companion indexed-array structure (xarray)
tags internal entries with the low two bits `10`; `xa_is_internal` from
`include/linux/xarray.h`, which is not among the sources. -/
def xa_is_internal (w : Nat) : Bool := w % 4 == 2

/-- Modelled from the spec: `xa_mk_internal(v) = (v << 2) | 2` of
`include/linux/xarray.h`. -/
def xa_mk_internal (v : Nat) : Nat := ((v <<< 2) ||| 2) % W

/-- Modelled from the spec: the zero sentinel of the companion indexed-array
structure, `XA_ZERO_ENTRY = xa_mk_internal(257) = 1030`. -/
def XA_ZERO_ENTRY : Nat := xa_mk_internal 257

/-- Modelled from the spec: the retry sentinel of the companion indexed-array
structure, `XA_RETRY_ENTRY = xa_mk_internal(256) = 1026`. -/
def XA_RETRY_ENTRY : Nat := xa_mk_internal 256

/-- Modelled from the spec: `xa_is_zero` of `include/linux/xarray.h`. -/
def xa_is_zero (w : Nat) : Bool := w == XA_ZERO_ENTRY

/-- Modelled from the spec: the "advanced" sentinel encodings of the
companion indexed-array structure; `xa_is_advanced` of
`include/linux/xarray.h` holds for internal entries up to the retry
sentinel. -/
def xa_is_advanced (w : Nat) : Bool := xa_is_internal w && w ≤ XA_RETRY_ENTRY

/-- Modelled from the spec: `xa_is_node` of `include/linux/xarray.h`:
an internal entry above 4096 is an encoded node pointer. -/
def xa_is_node (w : Nat) : Bool := xa_is_internal w && w > 4096

/-- Modelled from the spec: `xa_is_err` of `include/linux/xarray.h`:
internal entries at or above `xa_mk_internal(-MAX_ERRNO)` (with
`MAX_ERRNO = 4095`) encode errnos. -/
def xa_is_err (w : Nat) : Bool :=
  xa_is_internal w && xa_mk_internal (natOfInt (-4095)) ≤ w

/-- Modelled from the spec: `xa_err` of `include/linux/xarray.h`: recover the
errno by an arithmetic shift right by two of the signed reading (`Int.fdiv`
is the floor division that an arithmetic shift performs). -/
def xa_err (w : Nat) : Int :=
  if xa_is_err w then Int.fdiv (toSigned w) 4 else 0

/-!  Node types.  `enum maple_type` of `include/linux/maple_tree.h`. -/

inductive MapleType where
  | maple_dense
  | maple_sparse_6
  | maple_sparse_9
  | maple_sparse_16
  | maple_sparse_21
  | maple_sparse_32
  | maple_sparse_64
  | maple_leaf_16
  | maple_leaf_32
  | maple_leaf_64
  | maple_range_16
  | maple_range_32
  | maple_range_64
  | maple_arange_64
  deriving DecidableEq, Repr

/-- Numeric value of an `enum maple_type` constant (declaration order). -/
def mtTypeNat : MapleType → Nat
  | .maple_dense => 0
  | .maple_sparse_6 => 1
  | .maple_sparse_9 => 2
  | .maple_sparse_16 => 3
  | .maple_sparse_21 => 4
  | .maple_sparse_32 => 5
  | .maple_sparse_64 => 6
  | .maple_leaf_16 => 7
  | .maple_leaf_32 => 8
  | .maple_leaf_64 => 9
  | .maple_range_16 => 10
  | .maple_range_32 => 11
  | .maple_range_64 => 12
  | .maple_arange_64 => 13

/-- Interpretation of a 4-bit tag as an `enum maple_type`.  Tags 14 and 15
are outside the enum; reading them is undefined in C and never happens in
the modelled executions (we map them to `maple_dense`). -/
def typeOfNat (n : Nat) : MapleType :=
  match n with
  | 0 => .maple_dense
  | 1 => .maple_sparse_6
  | 2 => .maple_sparse_9
  | 3 => .maple_sparse_16
  | 4 => .maple_sparse_21
  | 5 => .maple_sparse_32
  | 6 => .maple_sparse_64
  | 7 => .maple_leaf_16
  | 8 => .maple_leaf_32
  | 9 => .maple_leaf_64
  | 10 => .maple_range_16
  | 11 => .maple_range_32
  | 12 => .maple_range_64
  | 13 => .maple_arange_64
  | _ => .maple_dense

/-!  Slot-count constants, 64-bit `NODE256` configuration
(`include/linux/maple_tree.h` lines 26-40). -/

def MAPLE_NODE_SLOTS : Nat := 31
def MAPLE_RANGE64_SLOTS : Nat := 16
def MAPLE_ARANGE64_SLOTS : Nat := 10
def MAPLE_RANGE32_SLOTS : Nat := 21
def MAPLE_RANGE16_SLOTS : Nat := 25
def MAPLE_SPARSE64_SLOTS : Nat := 15
def MAPLE_SPARSE32_SLOTS : Nat := 20
def MAPLE_SPARSE21_SLOTS : Nat := 23
def MAPLE_SPARSE16_SLOTS : Nat := 24
def MAPLE_SPARSE9_SLOTS : Nat := 27
def MAPLE_SPARSE6_SLOTS : Nat := 30

/-- Table `mt_max` of `src/lib/maple_tree.c` (maximum representable index
per node type). -/
def mt_max : MapleType → Nat
  | .maple_dense => MAPLE_NODE_SLOTS
  | .maple_sparse_6 => 2 ^ 6 - 1
  | .maple_sparse_9 => 2 ^ 9 - 1
  | .maple_sparse_16 => 2 ^ 16 - 1
  | .maple_sparse_21 => 2 ^ 21 - 1
  | .maple_sparse_32 => 2 ^ 32 - 1
  | .maple_sparse_64 => ULONG_MAX
  | .maple_leaf_16 => 2 ^ 16 - 1
  | .maple_leaf_32 => 2 ^ 32 - 1
  | .maple_leaf_64 => ULONG_MAX
  | .maple_range_16 => 2 ^ 16 - 1
  | .maple_range_32 => 2 ^ 32 - 1
  | .maple_range_64 => ULONG_MAX
  | .maple_arange_64 => ULONG_MAX

/-- Table `mt_slots` of `src/lib/maple_tree.c` (number of slots per node
type). -/
def mt_slots : MapleType → Nat
  | .maple_dense => MAPLE_NODE_SLOTS
  | .maple_sparse_6 => MAPLE_SPARSE6_SLOTS
  | .maple_sparse_9 => MAPLE_SPARSE9_SLOTS
  | .maple_sparse_16 => MAPLE_SPARSE16_SLOTS
  | .maple_sparse_21 => MAPLE_SPARSE21_SLOTS
  | .maple_sparse_32 => MAPLE_SPARSE32_SLOTS
  | .maple_sparse_64 => MAPLE_SPARSE64_SLOTS
  | .maple_leaf_16 => MAPLE_RANGE16_SLOTS
  | .maple_leaf_32 => MAPLE_RANGE32_SLOTS
  | .maple_leaf_64 => MAPLE_RANGE64_SLOTS
  | .maple_range_16 => MAPLE_RANGE16_SLOTS
  | .maple_range_32 => MAPLE_RANGE32_SLOTS
  | .maple_range_64 => MAPLE_RANGE64_SLOTS
  | .maple_arange_64 => MAPLE_ARANGE64_SLOTS

/-- Table `mt_pivots` of `src/lib/maple_tree.c` (number of stored pivots per
node type). -/
def mt_pivots : MapleType → Nat
  | .maple_dense => 0
  | .maple_sparse_6 => 1
  | .maple_sparse_9 => MAPLE_SPARSE9_SLOTS - 1
  | .maple_sparse_16 => MAPLE_SPARSE16_SLOTS - 1
  | .maple_sparse_21 => MAPLE_SPARSE21_SLOTS - 1
  | .maple_sparse_32 => MAPLE_SPARSE32_SLOTS - 1
  | .maple_sparse_64 => MAPLE_SPARSE64_SLOTS - 1
  | .maple_leaf_16 => MAPLE_RANGE16_SLOTS - 1
  | .maple_leaf_32 => MAPLE_RANGE32_SLOTS - 1
  | .maple_leaf_64 => MAPLE_RANGE64_SLOTS - 1
  | .maple_range_16 => MAPLE_RANGE16_SLOTS - 1
  | .maple_range_32 => MAPLE_RANGE32_SLOTS - 1
  | .maple_range_64 => MAPLE_RANGE64_SLOTS - 1
  | .maple_arange_64 => MAPLE_ARANGE64_SLOTS - 1

/-- Table `mt_min_slots` of `src/lib/maple_tree.c` (minimum occupancy per
node type); the `maple_arange_64` entry is the `NODE256` variant. -/
def mt_min_slots : MapleType → Nat
  | .maple_dense => MAPLE_NODE_SLOTS / 2
  | .maple_sparse_6 => MAPLE_SPARSE6_SLOTS / 2
  | .maple_sparse_9 => MAPLE_SPARSE9_SLOTS / 2
  | .maple_sparse_16 => MAPLE_SPARSE16_SLOTS / 2
  | .maple_sparse_21 => MAPLE_SPARSE21_SLOTS / 2
  | .maple_sparse_32 => MAPLE_SPARSE32_SLOTS / 2
  | .maple_sparse_64 => MAPLE_SPARSE64_SLOTS / 2
  | .maple_leaf_16 => MAPLE_RANGE16_SLOTS / 2
  | .maple_leaf_32 => MAPLE_RANGE32_SLOTS / 2
  | .maple_leaf_64 => MAPLE_RANGE64_SLOTS / 2 - 2
  | .maple_range_16 => MAPLE_RANGE16_SLOTS / 2
  | .maple_range_32 => MAPLE_RANGE32_SLOTS / 2
  | .maple_range_64 => MAPLE_RANGE64_SLOTS / 2 - 2
  | .maple_arange_64 => MAPLE_ARANGE64_SLOTS / 2 - 1

/-!  Tree flags (`include/linux/maple_tree.h` lines 183-197) and the
functions that read and write them. -/

def MA_ROOT_PARENT : Nat := 1
def MAPLE_ALLOC_RANGE : Nat := 1
def MAPLE_USE_RCU : Nat := 2
def MAPLE_HEIGHT_OFFSET : Nat := 2
def MAPLE_HEIGHT_MASK : Nat := 60

/-- Function `mt_height` of `src/lib/maple_tree.c`, as a function of the
flags word. -/
def mt_height (ma_flags : Nat) : Nat :=
  (ma_flags &&& MAPLE_HEIGHT_MASK) >>> MAPLE_HEIGHT_OFFSET

/-- Function `mas_in_rcu` of `src/lib/maple_tree.c`, as a function of the
flags word: it tests `ma_flags & (1 << MAPLE_USE_RCU)`. -/
def mas_in_rcu_flags (ma_flags : Nat) : Bool :=
  ma_flags &&& (1 <<< MAPLE_USE_RCU) != 0

/-- Function `mt_set_in_rcu` of `include/linux/maple_tree.h`, as a function
of the flags word: guarded by `ma_flags & MAPLE_USE_RCU`, it sets
`1 << MAPLE_USE_RCU`. -/
def mt_set_in_rcu_flags (ma_flags : Nat) : Nat :=
  if ma_flags &&& MAPLE_USE_RCU ≠ 0 then ma_flags
  else (ma_flags ||| (1 <<< MAPLE_USE_RCU)) % FLAGW

/-- Function `mt_clear_in_rcu` of `include/linux/maple_tree.h`, as a
function of the flags word: guarded by `ma_flags & MAPLE_USE_RCU`, it clears
`1 << MAPLE_USE_RCU`. -/
def mt_clear_in_rcu_flags (ma_flags : Nat) : Nat :=
  if ma_flags &&& MAPLE_USE_RCU = 0 then ma_flags
  else ma_flags &&& (FLAGW - 1 - (1 <<< MAPLE_USE_RCU))

/-!  Walk state (`struct ma_state` of `include/linux/maple_tree.h`).

The C structure smuggles two quantities inside pointers: the saved slot
offset / allocation request count lives in the low 7 bits of the `alloc`
pointer (`mas_set_alloc_req` / `mas_offset`), and the node field holds
either an encoded node pointer or one of the sentinels below.  The model
splits the `alloc` word into `offset` (its low 7 bits) and `allocCnt`
(the number of pooled nodes reachable from its high bits); the functions
that touch both keep the C aliasing, see `mas_node_cnt`. -/

structure MaState where
  index : Nat
  last : Nat
  node : Nat
  min : Nat
  max : Nat
  offset : Nat
  allocCnt : Nat
  span_enode : Nat
  full_cnt : Int
  depth : Nat
  deriving Repr

def MAS_START : Nat := 1
def MAS_ROOT : Nat := 5
def MAS_NONE : Nat := 9

/-- MA_ERROR(err) of `include/linux/maple_tree.h`:
`((unsigned long)err << 2) | 2`. -/
def maErrWord (err : Int) : Nat := ((natOfInt err <<< 2) ||| 2) % W

/-- MA_STATE initializer of `include/linux/maple_tree.h` (remaining fields
are zero-filled by the designated initializer). -/
def mkMas (first last : Nat) : MaState :=
  { index := first, last := last, node := MAS_START, min := 0,
    max := ULONG_MAX, offset := 0, allocCnt := 0, span_enode := 0,
    full_cnt := 0, depth := 0 }

def mas_is_none (mas : MaState) : Bool := mas.node == MAS_NONE

def mas_is_ptr (mas : MaState) : Bool := mas.node == MAS_ROOT

def mas_is_start (mas : MaState) : Bool := mas.node == MAS_START

def mas_is_err (mas : MaState) : Bool := xa_is_err mas.node

def mas_set_err (mas : MaState) (err : Int) : MaState :=
  { mas with node := maErrWord err }

/-- Function `mas_reset` of `include/linux/maple_tree.h`. -/
def mas_reset (mas : MaState) : MaState := { mas with node := MAS_START }

/-- Function `mas_pause` of `src/lib/maple_tree.c` (lines 3856-3868). -/
def mas_pause (mas : MaState) : MaState :=
  if mas.last = ULONG_MAX then { mas with node := MAS_NONE }
  else
    let mas := mas_reset mas
    let mas := { mas with last := (mas.last + 1) % W }
    { mas with index := mas.last }

/-!  Encoded node pointers (`maple_enode` words). -/

/-- Function `mte_node_type` of `src/lib/maple_tree.c`:
`(entry >> 3) & 15`. -/
def mte_node_type (w : Nat) : MapleType := typeOfNat ((w >>> 3) &&& 15)

/-- Function `ma_is_dense` of `src/lib/maple_tree.c`:
`type < maple_sparse_6`. -/
def ma_is_dense (t : MapleType) : Bool :=
  mtTypeNat t < mtTypeNat .maple_sparse_6

/-- Function `ma_is_leaf` of `src/lib/maple_tree.c`:
`type < maple_range_16`. -/
def ma_is_leaf (t : MapleType) : Bool :=
  mtTypeNat t < mtTypeNat .maple_range_16

def mte_is_leaf (w : Nat) : Bool := ma_is_leaf (mte_node_type w)

/-- Function `mte_to_node` of `src/lib/maple_tree.c`: clear the low 7 tag
bits of an encoded node pointer. -/
def mte_to_node (w : Nat) : Nat := w - w % 128

/-- Function `mt_mk_node` of `src/lib/maple_tree.c`:
`node | (type << 3) | 4`. -/
def mt_mk_node (addr : Nat) (t : MapleType) : Nat :=
  addr ||| (mtTypeNat t <<< 3) ||| 4

/-- Function `mte_mk_root` of `src/lib/maple_tree.c`: `node | 2`. -/
def mte_mk_root (w : Nat) : Nat := w ||| 2

/-- Function `mte_safe_root` of `src/lib/maple_tree.c`: `node & ~2`. -/
def mte_safe_root (w : Nat) : Nat := w &&& (W - 3)

/-- Function `mas_is_span_wr` of `src/lib/maple_tree.c` (lines 2800-2833):
classify the write `[mas->index, mas->last]` against the slot pivot `piv`
of the current node; on a spanning classification the node is recorded in
`span_enode`. -/
def mas_is_span_wr (mas : MaState) (piv : Nat) (entry : Nat) :
    Bool × MaState :=
  if mas.span_enode ≠ 0 then (true, mas)
  else if piv > mas.last then (false, mas)
  else if mas.last = ULONG_MAX ∧ mas.min ≤ mas.index ∧ mas.last = mas.max
    then (false, mas)
  else if ¬ mte_is_leaf mas.node then
    if mas.last < piv then (false, mas)
    else if entry ≠ 0 ∧ piv = mas.last then (false, mas)
    else (true, { mas with span_enode := mas.node })
  else
    if mas.last < mas.max then (false, mas)
    else if entry ≠ 0 ∧ mas.last = mas.max then (false, mas)
    else (true, { mas with span_enode := mas.node })

/-!  Nodes and the node heap.

A `struct maple_node` is a 256-byte union; every node created by the
modelled executions belongs to the `*_64` family and is only ever accessed
through the view it was created with, so one record with a `parent` word
and three backing arrays (pivots, slots, gaps, all zero-initialized as by
`__GFP_ZERO`) represents it.  Nodes live at 4096-aligned addresses
`nodeAddr id`; address 4096 is the `struct maple_tree` object itself (the
root parent pointer encodes it). -/

structure MapleNode where
  parent : Nat
  pivots : Nat → Nat
  slots : Nat → Nat
  gaps : Nat → Nat

def zeroNode : MapleNode :=
  { parent := 0, pivots := fun _ => 0, slots := fun _ => 0,
    gaps := fun _ => 0 }

/-- Pointwise array update used for node fields. -/
def updFn (f : Nat → Nat) (i v : Nat) : Nat → Nat :=
  fun j => if j = i then v else f j

/-- Address of the `struct maple_tree` object. -/
def treeAddr : Nat := 4096

/-- Address of the node with heap index `id`. -/
def nodeAddr (id : Nat) : Nat := 4096 * (id + 2)

/-- Heap index of the node at address `addr`. -/
def addrId (addr : Nat) : Nat := addr / 4096 - 2

/-- Tree handle plus the node heap (`struct maple_tree`). -/
structure MTree where
  ma_flags : Nat
  ma_root : Nat
  heap : List MapleNode

/-- The tree right after `mt_init` / `mtree_init` with the given flags. -/
def mtInit (flags : Nat) : MTree :=
  { ma_flags := flags, ma_root := 0, heap := [] }

def mtEmpty : MTree := mtInit 0

def mtEmptyAlloc : MTree := mtInit MAPLE_ALLOC_RANGE

/-- Dereference the node at word address `addr` (reads of addresses outside
the heap yield the zero node; the modelled executions never perform such
reads). -/
def heapNode (t : MTree) (addr : Nat) : MapleNode :=
  if addr < nodeAddr 0 then zeroNode
  else t.heap.getD (addrId addr) zeroNode

def heapSet (t : MTree) (addr : Nat) (n : MapleNode) : MTree :=
  if addr < nodeAddr 0 then t
  else { t with heap := t.heap.set (addrId addr) n }

/-- Function `mt_is_alloc` of `src/lib/maple_tree.c`. -/
def mt_is_alloc (t : MTree) : Bool :=
  t.ma_flags &&& MAPLE_ALLOC_RANGE ≠ 0

/-- Function `mt_is_reserved` of `src/lib/maple_tree.c` (lines 192-199). -/
def mt_is_reserved (entry : Nat) : Bool :=
  entry < 4096 && xa_is_internal entry

/-- Function `mt_is_empty` of `src/lib/maple_tree.c`: `!entry`. -/
def mt_is_empty (entry : Nat) : Bool := entry == 0

/-- Function `ma_is_root` of `src/lib/maple_tree.c`:
`node->parent & MA_ROOT_PARENT`. -/
def ma_is_root (mn : MapleNode) : Bool := mn.parent &&& MA_ROOT_PARENT ≠ 0

def mte_is_root (t : MTree) (w : Nat) : Bool :=
  ma_is_root (heapNode t (mte_to_node w))

/-- Function `mte_parent` of `src/lib/maple_tree.c`: parent word with the
low 7 bits cleared. -/
def mte_parent (t : MTree) (w : Nat) : Nat :=
  let p := (heapNode t (mte_to_node w)).parent
  p - p % 128

/-- Function `mte_dead_node` of `src/lib/maple_tree.c`: a node whose parent
word points back at the node itself. -/
def mte_dead_node (t : MTree) (w : Nat) : Bool :=
  mte_parent t w == mte_to_node w

/-- Function `mte_set_node_dead` of `src/lib/maple_tree.c`. -/
def mte_set_node_dead (t : MTree) (w : Nat) : MTree :=
  let addr := mte_to_node w
  heapSet t addr { heapNode t addr with parent := addr }

/-- Function `mte_parent_shift` of `src/lib/maple_tree.c`. -/
def mte_parent_shift (parent : Nat) : Nat :=
  if parent &&& 2 = 0 then 2 else 3

/-- Function `mte_parent_slot` of `src/lib/maple_tree.c`. -/
def mte_parent_slot (t : MTree) (w : Nat) : Nat :=
  let val := (heapNode t (mte_to_node w)).parent
  if val &&& 1 ≠ 0 then 0
  else (val &&& 0x7C) >>> mte_parent_shift val

/-- Function `mte_parent_range_enum` of `src/lib/maple_tree.c`. -/
def mte_parent_range_enum (parent : Nat) : MapleType :=
  if parent = 6 then .maple_range_64
  else if parent = 4 then .maple_range_32
  else if parent = 0 then .maple_range_16
  else .maple_dense

/-- Function `mte_parent_alloc_enum` of `src/lib/maple_tree.c`. -/
def mte_parent_alloc_enum (parent : Nat) : MapleType :=
  if parent = 6 then .maple_arange_64 else .maple_dense

/-- Function `mas_parent_enum` of `src/lib/maple_tree.c`. -/
def mas_parent_enum (t : MTree) (mas : MaState) (node : Nat) : MapleType :=
  let parent :=
    if ¬ mte_is_root t mas.node then
      let p := (heapNode t (mte_to_node node)).parent
      p &&& ((1 <<< mte_parent_shift p) - 1)
    else 6
  if mt_is_alloc t then mte_parent_alloc_enum parent
  else mte_parent_range_enum parent

/-- Function `mte_set_parent` of `src/lib/maple_tree.c` (lines 354-382). -/
def mte_set_parent (t : MTree) (node parent : Nat) (slot : Nat) : MTree :=
  let bitmask : Nat := 0x78
  let (slot_shift, type) : Nat × Nat :=
    match mte_node_type parent with
    | .maple_range_64 | .maple_arange_64 => (3, 6)
    | .maple_range_32 => (3, 2)
    | .maple_range_16 => (2, 0)
    | _ => (3, 0)
  let val := parent &&& (W - 1 - bitmask)
  let val := val ||| ((slot <<< slot_shift) % W)
  let val := val ||| type
  let addr := mte_to_node node
  heapSet t addr { heapNode t addr with parent := val }

/-!  Pivot, slot and gap accessors.  The C functions switch on the node
type to pick the union view; every view of the model reads the same backing
array because no node is ever re-interpreted at a different type. -/

/-- Function `ma_get_pivot` of `src/lib/maple_tree.c`. -/
def ma_get_pivot (mn : MapleNode) (slot : Nat) (type : MapleType) : Nat :=
  match type with
  | .maple_arange_64 => mn.pivots slot
  | .maple_range_64 | .maple_leaf_64 => mn.pivots slot
  | .maple_sparse_6 => mn.pivots 0
  | .maple_sparse_9 => mn.pivots slot
  | .maple_sparse_16 => mn.pivots slot
  | .maple_sparse_21 => mn.pivots slot
  | .maple_sparse_32 => mn.pivots slot
  | .maple_sparse_64 => mn.pivots slot
  | .maple_range_16 | .maple_leaf_16 => mn.pivots slot
  | .maple_range_32 | .maple_leaf_32 => mn.pivots slot
  | .maple_dense => 0

def _mte_get_pivot (t : MTree) (w : Nat) (slot : Nat)
    (type : MapleType) : Nat :=
  ma_get_pivot (heapNode t (mte_to_node w)) slot type

def mte_get_pivot (t : MTree) (w : Nat) (slot : Nat) : Nat :=
  _mte_get_pivot t w slot (mte_node_type w)

/-- Function `ma_set_pivot` of `src/lib/maple_tree.c` (its `BUG_ON` guard
halts the kernel and is not modelled; the modelled executions respect it).
The `maple_arange_64` case falls through into the `maple_dense` break after
writing the pivot; `maple_dense` itself stores no pivot. -/
def ma_set_pivot (mn : MapleNode) (slot : Nat) (type : MapleType)
    (val : Nat) : MapleNode :=
  match type with
  | .maple_dense => mn
  | _ => { mn with pivots := updFn mn.pivots slot val }

def mte_set_pivot (t : MTree) (w : Nat) (slot : Nat) (val : Nat) : MTree :=
  let addr := mte_to_node w
  heapSet t addr (ma_set_pivot (heapNode t addr) slot (mte_node_type w) val)

/-- Function `ma_get_rcu_slot` of `src/lib/maple_tree.c` (all cases read
the slot array of the respective view). -/
def ma_get_rcu_slot (mn : MapleNode) (slot : Nat) (_type : MapleType) : Nat :=
  mn.slots slot

def _mte_get_rcu_slot (t : MTree) (w : Nat) (slot : Nat)
    (type : MapleType) : Nat :=
  ma_get_rcu_slot (heapNode t (mte_to_node w)) slot type

def mte_get_rcu_slot (t : MTree) (w : Nat) (slot : Nat) : Nat :=
  _mte_get_rcu_slot t w slot (mte_node_type w)

def mas_get_rcu_slot (t : MTree) (mas : MaState) (slot : Nat) : Nat :=
  mte_get_rcu_slot t mas.node slot

/-- Function `ma_set_rcu_slot` of `src/lib/maple_tree.c` (all cases write
the slot array of the respective view; the `BUG_ON` guard is respected by
the modelled executions). -/
def ma_set_rcu_slot (mn : MapleNode) (slot : Nat) (_type : MapleType)
    (val : Nat) : MapleNode :=
  { mn with slots := updFn mn.slots slot val }

def mte_set_rcu_slot (t : MTree) (w : Nat) (slot : Nat) (val : Nat) : MTree :=
  let addr := mte_to_node w
  heapSet t addr
    (ma_set_rcu_slot (heapNode t addr) slot (mte_node_type w) val)

/-- Function `ma_get_gap` of `src/lib/maple_tree.c`: only `maple_arange_64`
nodes carry gaps. -/
def ma_get_gap (mn : MapleNode) (gap : Nat) (type : MapleType) : Nat :=
  match type with
  | .maple_arange_64 => mn.gaps gap
  | _ => 0

def mte_get_gap (t : MTree) (w : Nat) (gap : Nat) : Nat :=
  ma_get_gap (heapNode t (mte_to_node w)) gap (mte_node_type w)

/-- Function `mte_set_gap` of `src/lib/maple_tree.c`. -/
def mte_set_gap (t : MTree) (w : Nat) (gap : Nat) (val : Nat) : MTree :=
  match mte_node_type w with
  | .maple_arange_64 =>
      let addr := mte_to_node w
      heapSet t addr
        { heapNode t addr with gaps := updFn (heapNode t addr).gaps gap val }
  | _ => t

/-!  Safe pivots and data end. -/

/-- Function `_mas_get_safe_pivot` of `src/lib/maple_tree.c`: the stored
pivot, or `mas->max` past the stored pivots. -/
def _mas_get_safe_pivot (t : MTree) (mas : MaState) (slot : Nat)
    (type : MapleType) : Nat :=
  if mt_pivots type ≤ slot then mas.max
  else _mte_get_pivot t mas.node slot type

def mas_get_safe_pivot (t : MTree) (mas : MaState) (slot : Nat) : Nat :=
  _mas_get_safe_pivot t mas slot (mte_node_type mas.node)

/-- Function `mas_get_safe_lower_bound` of `src/lib/maple_tree.c`. -/
def mas_get_safe_lower_bound (t : MTree) (mas : MaState) (slot : Nat) : Nat :=
  if slot = 0 then mas.min
  else mas_get_safe_pivot t mas (slot - 1) + 1

/-- Loop of `_mas_data_end` of `src/lib/maple_tree.c` (lines 1114-1135);
carries the current slot, the pivot just read and the previous pivot, and
returns the final `(slot, piv)` pair.  The fuel bounds the slot count. -/
def _mas_data_end_loop (t : MTree) (mas : MaState) (type : MapleType)
    (slot piv prev_piv : Nat) : Nat → Nat × Nat
  | 0 => (slot, piv)
  | fuel + 1 =>
    if slot < mt_slots (mte_node_type mas.node) then
      let piv := _mas_get_safe_pivot t mas slot type
      if piv ≥ mas.max then (slot, piv)
      else if piv = 0 ∧ slot ≠ 0 then (slot - 1, prev_piv)
      else _mas_data_end_loop t mas type (slot + 1) piv piv fuel
    else (slot, piv)

/-- Function `_mas_data_end` of `src/lib/maple_tree.c`: index of the last
occupied slot together with its pivot. -/
def _mas_data_end (t : MTree) (mas : MaState) (type : MapleType) :
    Nat × Nat :=
  _mas_data_end_loop t mas type 0 mas.min mas.min (MAPLE_NODE_SLOTS + 1)

def mas_data_end (t : MTree) (mas : MaState) : Nat :=
  (_mas_data_end t mas (mte_node_type mas.node)).1

/-!  Allocation.

The node pool (`maple_node_cache`, an external collaborator per spec
section 6) is modelled as always able to satisfy a request:
`mas_node_cnt` records the requested count and, because in the C code a
successful `mas_node_node` run leaves the request bits of the `alloc`
pointer at zero, clears the smuggled offset; `mas_next_alloc` hands out a
fresh zeroed node. -/

def mas_node_cnt (mas : MaState) (count : Nat) : MaState :=
  if mas.allocCnt < count then { mas with allocCnt := count, offset := 0 }
  else mas

def mas_next_alloc (t : MTree) (mas : MaState) : Nat × MaState × MTree :=
  let addr := nodeAddr t.heap.length
  (addr, { mas with allocCnt := mas.allocCnt - 1 },
   { t with heap := t.heap ++ [zeroNode] })

/-- Function `mas_nomem` of `src/lib/maple_tree.c`: no retry is needed
unless the node is the `-ENOMEM` sentinel; the refill (modelled as always
succeeding) resets the walk.  `mas_empty_alloc` drops the pool. -/
def mas_nomem (mas : MaState) : Bool × MaState :=
  if mas.node ≠ maErrWord (-12) then (false, { mas with allocCnt := 0 })
  else (true, { mas with node := MAS_START, allocCnt := 1 })

/-- Function `mas_set_height` of `src/lib/maple_tree.c`: store `mas->depth`
into bits 2-5 of the 32-bit flags word. -/
def mas_set_height (t : MTree) (mas : MaState) : MTree :=
  let new_flags := t.ma_flags &&& (FLAGW - 1 - MAPLE_HEIGHT_MASK)
  let new_flags := (new_flags ||| (mas.depth <<< MAPLE_HEIGHT_OFFSET)) % FLAGW
  { t with ma_flags := new_flags }

/-!  Walks. -/

/-- Function `mas_start` of `src/lib/maple_tree.c` (lines 1070-1104):
set up the state for a walk; returns the entry for a single-entry tree. -/
def mas_start (t : MTree) (mas : MaState) : Nat × MaState :=
  if mas_is_err mas then (0, mas)
  else if mas_is_start mas then
    let mas := { mas with node := MAS_NONE, min := 0, max := ULONG_MAX,
                          offset := 0 }
    if t.ma_root = 0 then (0, mas)
    else
      let root := mte_safe_root t.ma_root
      if ¬ xa_is_node t.ma_root then
        if mas.index > 0 then (0, mas)
        else (t.ma_root, { mas with node := MAS_ROOT,
                                    offset := MAPLE_NODE_SLOTS })
      else (0, { mas with node := root })
  else (0, mas)

/-- Loop of the default case of `mas_node_walk` of `src/lib/maple_tree.c`
(lines 2842-2859); returns `(ret, i, min, pivot)`. -/
def mas_node_walk_loop (t : MTree) (mas : MaState) (type : MapleType)
    (i min piv : Nat) : Nat → Bool × Nat × Nat × Nat
  | 0 => (true, i, min, piv)
  | fuel + 1 =>
    if i < mt_slots type then
      let pivot := _mas_get_safe_pivot t mas i type
      if pivot = 0 ∧ i ≠ 0 then
        if mas.max < mas.index then (false, MAPLE_NODE_SLOTS, min, mas.max)
        else (true, i, min, mas.max)
      else if mas.index ≤ pivot then (true, i, min, pivot)
      else mas_node_walk_loop t mas type (i + 1) (pivot + 1) pivot fuel
    else (true, i, min, piv)

/-- Function `mas_node_walk` of `src/lib/maple_tree.c` (lines 2835-2876):
locate within the current node the slot whose range contains `mas->index`;
returns `(ret, range_min, range_max, mas)` with the offset stored in the
state.  In the `maple_dense` case the C code narrows `i` through an
`unsigned char`. -/
def mas_node_walk (t : MTree) (mas : MaState) (type : MapleType) :
    Bool × Nat × Nat × MaState :=
  match type with
  | .maple_dense =>
      let pivot := mas.index
      let min := mas.index
      let mas := { mas with index := mas.min }
      let i := mas.index % 256
      (true, min, pivot, { mas with offset := i })
  | _ =>
      let r := mas_node_walk_loop t mas type mas.offset mas.min 0
                 (MAPLE_NODE_SLOTS + 1)
      let ret := r.1
      let i := r.2.1
      let min := r.2.2.1
      let pivot := r.2.2.2
      (ret, min, pivot, { mas with offset := i })

/-- Function `__mas_walk` of `src/lib/maple_tree.c` (lines 3001-3031):
descend to the leaf whose range contains `mas->index`.  Fuel bounds the
tree height; `none` means the fuel ran out (the C loop would still be
descending). -/
def __mas_walk (t : MTree) (mas : MaState) :
    Nat → Option (Bool × Nat × Nat × MaState)
  | 0 => none
  | fuel + 1 =>
    let mas := { mas with depth := mas.depth + 1 }
    let type := mte_node_type mas.node
    let (ret, rmin, rmax, mas) := mas_node_walk t mas type
    if ¬ ret then some (false, rmin, rmax, mas)
    else if ma_is_leaf type then some (true, rmin, rmax, mas)
    else
      let next := mas_get_rcu_slot t mas mas.offset
      let mas := { mas with max := rmax, min := rmin }
      if mt_is_empty next then some (false, rmin, rmax, mas)
      else __mas_walk t { mas with node := next, offset := 0 } fuel

/-- Fuel that always suffices for a descent or a restart in the given
heap. -/
def walkFuel (t : MTree) : Nat := t.heap.length + 2

/-- Function `_mas_range_walk` of `src/lib/maple_tree.c` (lines
3781-3800). -/
def _mas_range_walk (t : MTree) (mas : MaState) :
    Option (Bool × Nat × Nat × MaState) :=
  let (entry, mas) := mas_start t mas
  if entry ≠ 0 then some (true, 0, 0, mas)
  else if mas_is_none mas then
    some (false, 0, 0, { mas with offset := MAPLE_NODE_SLOTS })
  else if mas_is_ptr mas then some (true, 0, 0, mas)
  else __mas_walk t { mas with offset := 0 } (walkFuel t)

/-- Function `mas_range_load` of `src/lib/maple_tree.c` (lines 4191-4219):
walk and read the entry; a dead node restarts the walk (fuel bounds the
restarts).  The result is the entry word (0 is NULL). -/
def mas_range_load (t : MTree) (mas : MaState) :
    Nat → Option (Nat × MaState)
  | 0 => none
  | fuel + 1 =>
    match _mas_range_walk t mas with
    | none => none
    | some (walked, _, _, mas) =>
      if walked then
        if mas_is_ptr mas ∧ mas.last = 0 then
          some (mte_safe_root t.ma_root, mas)
        else
          let slot := mas.offset
          if slot ≥ MAPLE_NODE_SLOTS then some (0, mas)
          else
            let entry := mas_get_rcu_slot t mas slot
            if mte_dead_node t mas.node then mas_range_load t mas fuel
            else if mas_is_none mas then some (0, mas)
            else if entry = 0 then some (0, mas)
            else some (entry, mas)
      else
        if mas_is_none mas then some (0, mas)
        else some (0, mas)

/-- Function `mas_load` of `src/lib/maple_tree.c`. -/
def mas_load (t : MTree) (mas : MaState) : Option (Nat × MaState) :=
  mas_range_load t mas (walkFuel t)

/-- Function `mtree_load` of `src/lib/maple_tree.c` (lines 4671-4684):
public lookup; a zero-sentinel entry is returned as NULL. -/
def mtree_load (t : MTree) (index : Nat) : Option Nat :=
  match mas_load t (mkMas index index) with
  | none => none
  | some (entry, _) => if xa_is_zero entry then some 0 else some entry

/-!  The big node scratch buffer (`struct maple_big_node`). -/

structure BigNode where
  slots : Nat → Nat
  pivots : Nat → Nat
  gaps : Nat → Nat
  min : Nat
  b_end : Nat
  type : MapleType

/-- The `memset(&b_node, 0, ...)` initialization of `_mas_store`. -/
def zeroBigNode : BigNode :=
  { slots := fun _ => 0, pivots := fun _ => 0, gaps := fun _ => 0,
    min := 0, b_end := 0, type := .maple_dense }

/-- Loop of `mas_mab_cp` of `src/lib/maple_tree.c` (lines 1565-1591): copy
node slots `i..mas_end` into the big node starting at `j`; the big node's
`b_end` is left at the next free slot. -/
def mas_mab_cp_loop (t : MTree) (mas : MaState) (mas_end : Nat)
    (i j : Nat) (b : BigNode) : Nat → BigNode
  | 0 => { b with b_end := j }
  | fuel + 1 =>
    if i ≤ mas_end then
      let b := { b with slots := updFn b.slots j (mas_get_rcu_slot t mas i) }
      let b :=
        if ¬ mte_is_leaf mas.node ∧ mt_is_alloc t then
          { b with gaps := updFn b.gaps j (mte_get_gap t mas.node i) }
        else b
      if i < mt_pivots (mte_node_type mas.node) then
        let b := { b with pivots := updFn b.pivots j
                            (mas_get_safe_pivot t mas i) }
        if (j ≠ 0 ∧ b.pivots j = 0) ∨ mas.max = b.pivots j then
          { b with b_end := j + 1 }
        else mas_mab_cp_loop t mas mas_end (i + 1) (j + 1) b fuel
      else
        let b := { b with pivots := updFn b.pivots j mas.max }
        { b with b_end := j + 1 }
    else { b with b_end := j }

def mas_mab_cp (t : MTree) (mas : MaState) (mas_start_ mas_end : Nat)
    (b : BigNode) (mab_start : Nat) : BigNode :=
  mas_mab_cp_loop t mas mas_end mas_start_ mab_start b
    (MAPLE_NODE_SLOTS + 2)

/-- Loop of `mab_mas_cp` of `src/lib/maple_tree.c` (lines 1600-1618): copy
big-node entries `i..mab_end` into the node of `mas`, updating `mas->max`
along the way. -/
def mab_mas_cp_loop (b : BigNode) (mab_end : Nat) (i j : Nat)
    (t : MTree) (mas : MaState) : Nat → MTree × MaState
  | 0 => (t, mas)
  | fuel + 1 =>
    if i ≤ mab_end then
      if j ≠ 0 ∧ b.pivots i = 0 then (t, mas)
      else
        let mas := { mas with max := b.pivots i }
        let t := mte_set_rcu_slot t mas.node j (b.slots i)
        let t :=
          if j < mt_pivots (mte_node_type mas.node) then
            mte_set_pivot t mas.node j (b.pivots i)
          else t
        let t :=
          if ¬ mte_is_leaf mas.node ∧ mt_is_alloc t then
            mte_set_gap t mas.node j (b.gaps i)
          else t
        mab_mas_cp_loop b mab_end (i + 1) (j + 1) t mas fuel
    else (t, mas)

def mab_mas_cp (b : BigNode) (mab_start mab_end : Nat)
    (t : MTree) (mas : MaState) : MTree × MaState :=
  mab_mas_cp_loop b mab_end mab_start 0 t mas (mab_end + 2)

/-- The skip loop of `mas_store_b_node`:
`do { piv = mas_get_safe_pivot(mas, ++slot); } while (piv <= last && slot <= end)`. -/
def store_b_node_skip (t : MTree) (mas : MaState) (end_ : Nat)
    (slot : Nat) : Nat → Nat × Nat
  | 0 => (slot, 0)
  | fuel + 1 =>
    let slot := slot + 1
    let piv := mas_get_safe_pivot t mas slot
    if piv ≤ mas.last ∧ slot ≤ end_ then
      store_b_node_skip t mas end_ slot fuel
    else (slot, piv)

/-- Function `mas_store_b_node` of `src/lib/maple_tree.c` (lines
1676-1737): stage the write `[mas->index, mas->last] := entry` together
with the surrounding leaf content into a big node.  The
`piv = mas->min - 1` underflow wraps modulo `2^64` exactly as the unsigned
C arithmetic does. -/
def mas_store_b_node (t : MTree) (mas : MaState) (b : BigNode)
    (entry : Nat) : Nat × BigNode :=
  let slot := mas.offset
  let end_ := mas_data_end t mas
  let contents := mas_get_rcu_slot t mas slot
  let (b, b_end, piv) :=
    if slot ≠ 0 then
      let b := mas_mab_cp t mas 0 (slot - 1) b 0
      (b, b.b_end, b.pivots (b.b_end - 1))
    else (b, 0, (mas.min + W - 1) % W)
  let (b, b_end) :=
    if (piv + 1) % W < mas.index then
      let b := { b with slots := updFn b.slots b_end contents }
      let b :=
        if contents = 0 then
          { b with gaps := updFn b.gaps b_end ((mas.index + W - 1 - piv) % W) }
        else b
      let b := { b with pivots := updFn b.pivots b_end (mas.index - 1) }
      (b, b_end + 1)
    else (b, b_end)
  let b := { b with slots := updFn b.slots b_end entry,
                    pivots := updFn b.pivots b_end mas.last }
  let piv := mas_get_safe_pivot t mas slot
  let (b, b_end, piv) :=
    if piv > mas.last then
      let b_end := b_end + 1
      let b := { b with slots := updFn b.slots b_end contents }
      let b :=
        if contents = 0 then
          { b with gaps := updFn b.gaps b_end (piv - mas.last + 1) }
        else b
      let b := { b with pivots := updFn b.pivots b_end piv }
      (b, b_end, piv)
    else (b, b_end, mas.last)
  if piv ≥ mas.max then (b_end, b)
  else
    let (slot, piv) := store_b_node_skip t mas end_ slot
                         (MAPLE_NODE_SLOTS + 2)
    if piv > mas.last then
      if slot > end_ then
        let b_end := b_end + 1
        let b := { b with slots := updFn b.slots b_end 0,
                          pivots := updFn b.pivots b_end piv }
        (b_end, b)
      else
        let b := mas_mab_cp t mas slot (end_ + 1) b (b_end + 1)
        (b.b_end - 1, b)
    else (b_end, b)

/-- Function `mas_can_append` of `src/lib/maple_tree.c` (lines
3113-3134). -/
def mas_can_append (mas : MaState) (b : BigNode) (slot_cnt end_ : Nat) :
    Bool :=
  if b.b_end ≥ slot_cnt then false
  else if b.b_end ≤ end_ then false
  else if mas.last = 0 then false
  else if b.pivots b.b_end = mas.last then true
  else if b.pivots (b.b_end - 1) = mas.last ∧ b.slots b.b_end = 0 then true
  else false

/-- The append loop of `_mas_store` (lines 3190-3194):
`do { set slot; set pivot; } while (slot && slot-- >= end)`; the loop body
runs at the current slot, then continues at `slot - 1` while the
pre-decrement value is nonzero and at least `end`. -/
def mas_store_append (t : MTree) (node b_slot_cnt end_ : Nat)
    (b : BigNode) : Nat → MTree
  | 0 =>
      let t := mte_set_rcu_slot t node 0 (b.slots 0)
      if 0 + 1 < b_slot_cnt then mte_set_pivot t node 0 (b.pivots 0) else t
  | slot + 1 =>
      let t := mte_set_rcu_slot t node (slot + 1) (b.slots (slot + 1))
      let t :=
        if slot + 2 < b_slot_cnt then
          mte_set_pivot t node (slot + 1) (b.pivots (slot + 1))
        else t
      if slot + 1 ≥ end_ then mas_store_append t node b_slot_cnt end_ b slot
      else t

/-- Function `mas_extend_null` of `src/lib/maple_tree.c` (lines
2946-2990), in the aliased form `mas_extend_null(mas, mas)` used by the
single-node store: `l_mas` and `r_mas` are the same cursor, so the final
`if (l_mas != r_mas) mas_set_offset(r_mas, cp_r_slot)` is a no-op and the
`cp_r_slot` bookkeeping has no effect. -/
def mas_extend_null (t : MTree) (mas : MaState) : MaState :=
  let l_slot := mas.offset
  let r_slot := mas.offset
  let content := mas_get_rcu_slot t mas l_slot
  let range_max := mas_get_safe_pivot t mas r_slot
  let range_min :=
    if l_slot ≠ 0 then mas_get_safe_pivot t mas (l_slot - 1) + 1
    else mas.min
  let mas := if content = 0 then { mas with index := range_min } else mas
  let mas :=
    if mas.index = range_min ∧ l_slot ≠ 0 ∧
       mas_get_rcu_slot t mas (l_slot - 1) = 0 then
      let mas :=
        if l_slot > 1 then
          { mas with index := mas_get_safe_pivot t mas (l_slot - 2) + 1 }
        else { mas with index := mas.min }
      { mas with offset := l_slot - 1 }
    else mas
  let mas :=
    if mas_get_rcu_slot t mas r_slot = 0 then
      if mas.last < range_max then { mas with last := range_max } else mas
    else mas
  let mas :=
    if mas.last = range_max ∧ mas.last < mas.max ∧
       mas_get_rcu_slot t mas (r_slot + 1) = 0 then
      { mas with last := mas_get_safe_pivot t mas (r_slot + 1) }
    else mas
  if r_slot ≠ 0 ∧ mas.last = 0 then { mas with last := mas.max } else mas

/-!  The write walk and the single-node store. -/

/-- Function `mas_cnt_full` of `src/lib/maple_tree.c`. -/
def mas_cnt_full (mas : MaState) : MaState :=
  if mas.full_cnt < 0 then { mas with full_cnt := 1 }
  else { mas with full_cnt := mas.full_cnt + 1 }

/-- Function `mas_cnt_empty` of `src/lib/maple_tree.c`. -/
def mas_cnt_empty (mas : MaState) : MaState :=
  if mas.full_cnt > 0 then { mas with full_cnt := -1 }
  else { mas with full_cnt := mas.full_cnt - 1 }

/-- Loop of `mas_wr_walk` of `src/lib/maple_tree.c` (lines 2899-2944);
fuel bounds the tree height. -/
def mas_wr_walk_loop (t : MTree) (entry : Nat) (mas : MaState) :
    Nat → Option (Bool × Nat × Nat × MaState)
  | 0 => none
  | fuel + 1 =>
    let type := mte_node_type mas.node
    let mas := { mas with depth := mas.depth + 1 }
    let end_ := mas_data_end t mas
    let (ret, rmin, rmax, mas) := mas_node_walk t mas type
    if ¬ ret then some (false, rmin, rmax, mas)
    else
      let (span, mas) := mas_is_span_wr mas rmax entry
      if span then some (ma_is_leaf type, rmin, rmax, mas)
      else if ma_is_leaf type then some (true, rmin, rmax, mas)
      else
        let mas :=
          if end_ ≤ mt_min_slots type then mas_cnt_empty mas
          else if end_ + 1 ≥ mt_slots type then mas_cnt_full mas
          else { mas with full_cnt := 0 }
        let next := mas_get_rcu_slot t mas mas.offset
        let mas := { mas with max := rmax, min := rmin }
        if mt_is_empty next then some (false, rmin, rmax, mas)
        else mas_wr_walk_loop t entry { mas with node := next, offset := 0 }
               fuel

/-- Function `mas_wr_walk` of `src/lib/maple_tree.c`: the write walk, with
`span_enode`, `full_cnt` and `depth` cleared on entry. -/
def mas_wr_walk (t : MTree) (mas : MaState) (entry : Nat) :
    Option (Bool × Nat × Nat × MaState) :=
  mas_wr_walk_loop t entry
    { mas with span_enode := 0, full_cnt := 0, depth := 0 } (walkFuel t)

/-- Loop of `mas_adopt_children` of `src/lib/maple_tree.c` (lines
1362-1380). -/
def mas_adopt_children_loop (parent : Nat) (slot_cnt : Nat)
    (t : MTree) (slot : Nat) : Nat → MTree
  | 0 => t
  | fuel + 1 =>
    if slot < slot_cnt then
      let type := mte_node_type parent
      if slot ≠ 0 ∧ slot < slot_cnt - 1 ∧
         _mte_get_pivot t parent slot type = 0 then t
      else
        let child := _mte_get_rcu_slot t parent slot type
        let t :=
          if ¬ mt_is_empty child then mte_set_parent t child parent slot
          else t
        mas_adopt_children_loop parent slot_cnt t (slot + 1) fuel
    else t

def mas_adopt_children (t : MTree) (parent : Nat) : MTree :=
  mas_adopt_children_loop parent (mt_slots (mte_node_type parent)) t 0
    (MAPLE_NODE_SLOTS + 1)

/-- Function `mte_free` / `ma_free_rcu` of `src/lib/maple_tree.c`: the node
is marked dead (parent pointing at itself) and handed to deferred
reclamation; the heap keeps the dead record. -/
def mte_free (t : MTree) (enode : Nat) : MTree :=
  mte_set_node_dead t enode

/-- Function `mas_replace` of `src/lib/maple_tree.c` (lines 1390-1424). -/
def mas_replace (t : MTree) (mas : MaState) (advanced : Bool) : MTree :=
  let mn := mte_to_node mas.node
  let root := mte_is_root t mas.node
  let ptype := mas_parent_enum t mas mas.node
  let parent := mt_mk_node (mte_parent t mas.node) ptype
  let slot := if root then 0 else mte_parent_slot t mas.node
  let prev := if root then t.ma_root else mte_get_rcu_slot t parent slot
  if mte_to_node prev = mn then t
  else
    let t :=
      if ¬ advanced ∧ ¬ mte_is_leaf mas.node then
        mas_adopt_children t mas.node
      else t
    let t :=
      if root then
        let t := heapSet t mn
          { heapNode t mn with parent := treeAddr ||| MA_ROOT_PARENT }
        let t := { t with ma_root := mte_mk_root mas.node }
        mas_set_height t mas
      else mte_set_rcu_slot t parent slot mas.node
    if ¬ advanced then mte_free t prev else t

/-- Function `mas_dup_state` of `src/lib/maple_tree.c` (lines 800-809):
copy tree position and offset; `full_cnt`, `depth`, the allocation pool
and `span_enode` are not copied. -/
def mas_dup_state (dst src : MaState) : MaState :=
  { dst with index := src.index, last := src.last, node := src.node,
             max := src.max, min := src.min, offset := src.offset }

/-- Function `mas_descend` of `src/lib/maple_tree.c` (lines 815-823). -/
def mas_descend (t : MTree) (mas : MaState) : MaState :=
  let slot := mas.offset
  let mas :=
    if slot ≠ 0 then
      { mas with min := mas_get_safe_pivot t mas (slot - 1) + 1 }
    else mas
  let mas := { mas with max := mas_get_safe_pivot t mas slot }
  { mas with node := mas_get_rcu_slot t mas slot }

/-- The `ascend:` loop of `mas_ascend` of `src/lib/maple_tree.c` (lines
876-907): climb ancestors of the parent `p_enode` until pivots determine
the parent's `[min, max]`.  Fuel bounds the climb (the C `MT_BUG_ON` case
is a kernel halt). -/
def mas_ascend_loop (t : MTree) (p_enode : Nat) (mas : MaState)
    (set_min set_max : Bool) (min max : Nat) : Nat → MaState
  | 0 => mas
  | fuel + 1 =>
    let a_type := mas_parent_enum t mas mas.node
    let a_node := mte_parent t mas.node
    let a_slot := mte_parent_slot t mas.node
    let a_enode := mt_mk_node a_node a_type
    let (set_min, min) :=
      if ¬ set_min ∧ a_slot ≠ 0 then
        (true, mte_get_pivot t a_enode (a_slot - 1) + 1)
      else (set_min, min)
    let (set_max, max) :=
      if ¬ set_max ∧ a_slot < mt_pivots a_type then
        (true, mte_get_pivot t a_enode a_slot)
      else (set_max, max)
    let (min, max) :=
      if ma_is_root (heapNode t a_node) then
        ((if ¬ set_min then 0 else min),
         (if ¬ set_max then mt_max a_type else max))
      else (min, max)
    if max = 0 ∨ min = ULONG_MAX then
      mas_ascend_loop t p_enode { mas with node := a_enode } set_min set_max
        min max fuel
    else { mas with max := max, min := min, node := p_enode }

/-- Function `mas_ascend` of `src/lib/maple_tree.c` (lines 853-912): move
the state to the parent node and recover the parent's `[min, max]`. -/
def mas_ascend (t : MTree) (mas : MaState) : MaState :=
  if ma_is_root (heapNode t (mte_to_node mas.node)) then
    let a_type := mte_node_type mas.node
    { mas with max := mt_max a_type, min := 0 }
  else
    let p_enode := mt_mk_node (mte_parent t mas.node)
                     (mas_parent_enum t mas mas.node)
    if mte_is_root t p_enode then
      let a_type := mas_parent_enum t mas mas.node
      { mas with max := mt_max a_type, min := 0, node := p_enode }
    else
      mas_ascend_loop t p_enode { mas with node := p_enode } false false
        ULONG_MAX 0 (walkFuel t)

/-- Function `mas_prev_sibling` of `src/lib/maple_tree.c` (lines
1748-1762). -/
def mas_prev_sibling (t : MTree) (mas : MaState) : Bool × MaState :=
  let p_slot := mte_parent_slot t mas.node
  if mte_is_root t mas.node then (false, mas)
  else if p_slot = 0 then (false, mas)
  else
    let mas := mas_ascend t mas
    let mas := { mas with offset := p_slot - 1 }
    (true, mas_descend t mas)

/-- Function `mas_next_sibling` of `src/lib/maple_tree.c` (lines
1770-1790). -/
def mas_next_sibling (t : MTree) (mas : MaState) : Bool × MaState :=
  let p_slot := mte_parent_slot t mas.node
  if mte_is_root t mas.node then (false, mas)
  else
    let parent := mas_dup_state (mkMas mas.index mas.last) mas
    let parent := mas_ascend t parent
    let p_end := mas_data_end t parent
    if p_end = p_slot then (false, mas)
    else
      let mas := mas_ascend t mas
      let mas := { mas with offset := p_slot + 1 }
      (true, mas_descend t mas)

/-!  The gap engine. -/

/-- The dense-leaf loop of `mas_leaf_max_gap`: count the longest run of
empty slots. -/
def mas_leaf_max_gap_dense (t : MTree) (mas : MaState)
    (i gap max_gap : Nat) : Nat → Nat
  | 0 => if gap > max_gap then gap else max_gap
  | fuel + 1 =>
    if i < mt_slots (mte_node_type mas.node) then
      let entry := mas_get_rcu_slot t mas i
      if ¬ mt_is_empty entry then
        mas_leaf_max_gap_dense t mas (i + 1) 0
          (if gap > max_gap then gap else max_gap) fuel
      else mas_leaf_max_gap_dense t mas (i + 1) (gap + 1) max_gap fuel
    else if gap > max_gap then gap else max_gap

/-- The ranged-leaf loop of `mas_leaf_max_gap` (lines 1173-1193); the
`pend - pstart + 1` arithmetic wraps modulo `2^64` as in C. -/
def mas_leaf_max_gap_loop (t : MTree) (mas : MaState) (mt : MapleType)
    (pstart max_gap : Nat) (i : Nat) : Nat → Nat
  | 0 => max_gap
  | fuel + 1 =>
    if i < mt_slots mt then
      let pend := mas_get_safe_pivot t mas i
      let pend := if pend = 0 ∧ i ≠ 0 then mas.max else pend
      let gap := (pend + 1 + (W - pstart)) % W
      let entry := mas_get_rcu_slot t mas i
      let max_gap :=
        if ¬ mt_is_empty entry then max_gap
        else if gap > max_gap then gap else max_gap
      if pend ≥ mas.max then max_gap
      else mas_leaf_max_gap_loop t mas mt (pend + 1) max_gap (i + 1) fuel
    else max_gap

/-- Function `mas_leaf_max_gap` of `src/lib/maple_tree.c` (lines
1148-1197): the largest empty sub-range of a leaf. -/
def mas_leaf_max_gap (t : MTree) (mas : MaState) : Nat :=
  let mt := mte_node_type mas.node
  if ma_is_dense mt then
    mas_leaf_max_gap_dense t mas 0 0 0 (MAPLE_NODE_SLOTS + 1)
  else
    mas_leaf_max_gap_loop t mas mt mas.min 0 0 (MAPLE_NODE_SLOTS + 1)

/-- Loop of `mas_max_gap` of `src/lib/maple_tree.c` (lines 1201-1215). -/
def mas_max_gap_loop (t : MTree) (mas : MaState) (i max_gap : Nat) :
    Nat → Nat
  | 0 => max_gap
  | fuel + 1 =>
    if i < mt_slots (mte_node_type mas.node) then
      let gap := mte_get_gap t mas.node i
      mas_max_gap_loop t mas (i + 1)
        (if gap > max_gap then gap else max_gap) fuel
    else max_gap

/-- Function `mas_max_gap` of `src/lib/maple_tree.c`: largest recorded gap
of an internal node. -/
def mas_max_gap (t : MTree) (mas : MaState) : Nat :=
  mas_max_gap_loop t mas 0 0 (MAPLE_NODE_SLOTS + 1)

/-- Function `mas_find_gap` of `src/lib/maple_tree.c`. -/
def mas_find_gap (t : MTree) (mas : MaState) : Nat :=
  if mte_is_leaf mas.node then mas_leaf_max_gap t mas
  else mas_max_gap t mas

/-- The `ascend:` loop of `mas_parent_gap` of `src/lib/maple_tree.c`
(lines 1223-1247): record `new` as the gap of slot `slot` in the parent
and propagate while the parent's maximum changes. -/
def mas_parent_gap_loop (t : MTree) (gaps : MaState) (slot new : Nat) :
    Nat → MTree
  | 0 => t
  | fuel + 1 =>
    let gaps := mas_ascend t gaps
    let old_max_gap := mas_max_gap t gaps
    let t := mte_set_gap t gaps.node slot new
    let new := mas_max_gap t gaps
    if new = old_max_gap then t
    else if mte_is_root t gaps.node then t
    else mas_parent_gap_loop t gaps (mte_parent_slot t gaps.node) new fuel

/-- Function `mas_parent_gap` of `src/lib/maple_tree.c`. -/
def mas_parent_gap (t : MTree) (mas : MaState) (slot new : Nat) : MTree :=
  let gaps := mas_dup_state (mkMas mas.index mas.last) mas
  mas_parent_gap_loop t gaps slot new (walkFuel t)

/-- Function `mas_update_gap` of `src/lib/maple_tree.c` (lines 1253-1276):
recompute this node's maximum gap and, if the parent's record differs,
propagate it upward. -/
def mas_update_gap (t : MTree) (mas : MaState) : MTree :=
  if ¬ mt_is_alloc t then t
  else if mte_is_root t mas.node then t
  else
    let max_gap :=
      if mte_is_leaf mas.node then mas_leaf_max_gap t mas
      else mas_max_gap t mas
    let pslot := mte_parent_slot t mas.node
    let p_gap := ma_get_gap (heapNode t (mte_parent t mas.node)) pslot
                   (mas_parent_enum t mas mas.node)
    if p_gap ≠ max_gap then mas_parent_gap t mas pslot max_gap
    else t

/-!  Topiary lists (`struct ma_topiary`) and subtree adoption. -/

/-- A topiary: the linked list of dead nodes.  The C list lives inside the
dead nodes themselves (`struct maple_topiary`'s `next` field overlays
`pivot[0]`); the model performs those overlay writes and additionally
mirrors the chain as a Lean list, which stays in sync because nothing
writes into dead nodes between `mat_add` and `mat_free`. -/
structure MaTopiary where
  list : List Nat

/-- Function `mat_add` of `src/lib/maple_tree.c` (lines 756-768): mark the
node dead, null its overlay `next` (pivot 0), and chain it at the tail
(writing the tail's overlay `next`). -/
def mat_add (t : MTree) (mat : MaTopiary) (dead_enode : Nat) :
    MTree × MaTopiary :=
  let t := mte_set_node_dead t dead_enode
  let daddr := mte_to_node dead_enode
  let t := heapSet t daddr
    { heapNode t daddr with pivots := updFn (heapNode t daddr).pivots 0 0 }
  match mat.list with
  | [] => (t, ⟨[dead_enode]⟩)
  | _ =>
    let tail := mat.list.getLastD 0
    let taddr := mte_to_node tail
    let t := heapSet t taddr
      { heapNode t taddr with
        pivots := updFn (heapNode t taddr).pivots 0 dead_enode }
    (t, ⟨mat.list ++ [dead_enode]⟩)

/-- Function `mat_free` of `src/lib/maple_tree.c` in its non-recursive
form (`mat_free(mat, false)`): `mte_free` every chained node. -/
def mat_free (t : MTree) (mat : MaTopiary) : MTree :=
  mat.list.foldl (fun t e => mte_free t e) t

/-- Loop of `mas_new_child` of `src/lib/maple_tree.c` (lines 1432-1451):
find the next slot whose child's parent word already points back here. -/
def mas_new_child_loop (t : MTree) (mas child : MaState) (end_ : Nat)
    (slot : Nat) : Nat → Bool × MaState × MaState
  | 0 => (false, mas, child)
  | fuel + 1 =>
    if slot < end_ then
      let entry := mas_get_rcu_slot t mas slot
      if entry = 0 then (false, mas, child)
      else if mte_parent t entry = mte_to_node mas.node then
        let mas := { mas with offset := slot }
        let child := mas_dup_state child mas
        let mas := { mas with offset := slot + 1 }
        let child := mas_descend t child
        (true, mas, child)
      else mas_new_child_loop t mas child end_ (slot + 1) fuel
    else (false, mas, child)

def mas_new_child (t : MTree) (mas child : MaState) :
    Bool × MaState × MaState :=
  mas_new_child_loop t mas child (mt_slots (mte_node_type mas.node))
    mas.offset (MAPLE_NODE_SLOTS + 1)

/-- The `while (n < 3 && mas_new_child(...))` collection step of
`mas_descend_adopt`. -/
def mas_dadopt_fill (t : MTree) (li : MaState) (nexts : List MaState)
    (n : Nat) : Nat → MaState × List MaState × Nat
  | 0 => (li, nexts, n)
  | fuel + 1 =>
    if n < 3 then
      let child := nexts.getD n (mkMas 0 0)
      let (found, li, child) := mas_new_child t li child
      if found then mas_dadopt_fill t li (nexts.set n child) (n + 1) fuel
      else (li, nexts, n)
    else (li, nexts, n)

/-- The per-`i` body of the `mas_descend_adopt` level loop. -/
def mas_dadopt_step (st : MTree × List MaState × List MaState × Nat)
    (i : Nat) : MTree × List MaState × List MaState × Nat :=
  let (t, lists, nexts, n) := st
  let li := lists.getD i (mkMas 0 0)
  if mas_is_none li then (t, lists, nexts, n)
  else if i ≠ 0 ∧ (lists.getD (i - 1) (mkMas 0 0)).node = li.node then
    (t, lists, nexts, n)
  else
    let (li, nexts, n) := mas_dadopt_fill t li nexts n 4
    let t := mas_adopt_children t li.node
    (t, lists.set i li, nexts, n)

/-- The level loop of `mas_descend_adopt` of `src/lib/maple_tree.c`
(lines 1628-1665). -/
def mas_descend_adopt_loop (t : MTree) (lists nexts : List MaState) :
    Nat → MTree
  | 0 => t
  | fuel + 1 =>
    let l0 := lists.getD 0 (mkMas 0 0)
    if mte_is_leaf l0.node then t
    else
      let st := mas_dadopt_step (mas_dadopt_step (mas_dadopt_step
                  (t, lists, nexts, 0) 0) 1) 2
      let (t, _, nexts, n) := st
      let nexts := (List.range 3).foldl
        (fun nx k =>
          if n ≤ k then
            nx.set k { nx.getD k (mkMas 0 0) with node := MAS_NONE }
          else nx) nexts
      let nexts := nexts.map (fun m => { m with offset := 0 })
      mas_descend_adopt_loop t nexts nexts fuel

/-- Function `mas_descend_adopt` of `src/lib/maple_tree.c`: walk the new
sub-tree with three cursors and set the parent words of all children that
do not yet point at their new parents. -/
def mas_descend_adopt (t : MTree) (mas : MaState) : MTree :=
  let base := { mas with offset := 0 }
  mas_descend_adopt_loop t [base, base, base] [mas, base, base] (walkFuel t)

/-!  Split machinery (`mas_split` and its helpers). -/

/-- Function `mab_shift_right` of `src/lib/maple_tree.c` (lines
1460-1468): move `b_end` elements of each big-node array up by `shift`. -/
def mab_shift_right (b : BigNode) (shift : Nat) : BigNode :=
  let n := b.b_end
  { b with
    pivots := fun j =>
      if shift ≤ j ∧ j < shift + n then b.pivots (j - shift) else b.pivots j,
    slots := fun j =>
      if shift ≤ j ∧ j < shift + n then b.slots (j - shift) else b.slots j,
    gaps := fun j =>
      if shift ≤ j ∧ j < shift + n then b.gaps (j - shift) else b.gaps j }

/-- Function `mab_middle_node` of `src/lib/maple_tree.c` (lines
1479-1491). -/
def mab_middle_node (b : BigNode) (split slot_cnt : Nat) : Bool :=
  let size := b.b_end
  if size ≥ 2 * slot_cnt then true
  else if b.slots split = 0 ∧ size ≥ 2 * slot_cnt - 1 then true
  else false

/-- Function `mab_no_null_split` of `src/lib/maple_tree.c` (lines
1500-1514); `split` is an `unsigned char`, so its in/decrements wrap
modulo 256, and the occupancy comparison is `int` arithmetic. -/
def mab_no_null_split (b : BigNode) (split slot_cnt : Nat) : Nat :=
  if b.slots split = 0 then
    if split + 1 < slot_cnt ∧
       (b.b_end : Int) - (split : Int) > (mt_min_slots b.type : Int) then
      (split + 1) % 256
    else (split + 256 - 1) % 256
  else split

/-- The split-nudging loop of `mab_calc_split` (lines 1539-1542); the
`pivot - min` difference is unsigned 64-bit arithmetic and the occupancy
comparison is `int` arithmetic. -/
def mab_calc_split_loop (b : BigNode) (slot_cnt : Nat) (split : Nat) :
    Nat → Nat
  | 0 => split
  | fuel + 1 =>
    if (b.pivots split + (W - b.min)) % W < slot_cnt - 1 ∧
       split + 1 < slot_cnt ∧
       (b.b_end : Int) - (split : Int) > (mt_min_slots b.type : Int) - 1 then
      mab_calc_split_loop b slot_cnt (split + 1) fuel
    else split

/-- Function `mab_calc_split` of `src/lib/maple_tree.c` (lines
1524-1553): the first split location and the optional second
(`mid_split`, 0 when absent). -/
def mab_calc_split (b : BigNode) : Nat × Nat :=
  let slot_cnt := mt_slots b.type
  let (split, mid_split) :=
    if mab_middle_node b (b.b_end / 2) slot_cnt then
      (b.b_end / 3, b.b_end / 3 * 2)
    else
      (mab_calc_split_loop b slot_cnt (b.b_end / 2) (MAPLE_NODE_SLOTS + 1),
       0)
  let split := mab_no_null_split b split slot_cnt
  if mid_split = 0 then (split, 0)
  else (split, mab_no_null_split b mid_split slot_cnt)

/-- Function `mab_set_b_end` of `src/lib/maple_tree.c` (lines 2046-2057):
append a child (with its gap and its `mas->max` pivot) to the big node. -/
def mab_set_b_end (t : MTree) (b : BigNode) (mas : MaState)
    (entry : Nat) : BigNode :=
  if entry = 0 then b
  else
    let b := { b with slots := updFn b.slots b.b_end entry }
    let b :=
      if mt_is_alloc t then
        { b with gaps := updFn b.gaps b.b_end (mas_find_gap t mas) }
      else b
    { b with pivots := updFn b.pivots b.b_end mas.max,
             b_end := b.b_end + 1 }

/-- Function `mas_set_split_parent` of `src/lib/maple_tree.c` (lines
2069-2083); returns the updated running slot. -/
def mas_set_split_parent (t : MTree) (mas : MaState) (left right : Nat)
    (slot split : Nat) : MTree × Nat :=
  if mas_is_none mas then (t, slot)
  else
    let t :=
      if slot ≤ split then mte_set_parent t mas.node left slot
      else if right ≠ 0 then
        mte_set_parent t mas.node right (slot - split - 1)
      else t
    (t, slot + 1)

/-- The cursors of a `struct maple_subtree_state`: the new left, middle
and right sides being built, and the original left and right boundaries
(`mas_split` leaves `m` unused; the spanning engine uses all five). -/
structure MastState where
  l : MaState
  m : MaState
  r : MaState
  orig_l : MaState
  orig_r : MaState

/-- Function `mast_split_data` of `src/lib/maple_tree.c` (lines
2513-2532): distribute the big node over the new left and right nodes and
re-parent the tracked original cursors at internal levels. -/
def mast_split_data (t : MTree) (mast : MastState) (mas : MaState)
    (bn : BigNode) (split : Nat) : MTree × MastState :=
  let (t, l) := mab_mas_cp bn 0 split t mast.l
  let t := mte_set_pivot t mast.r.node 0 mast.r.max
  let (t, r) := mab_mas_cp bn (split + 1) bn.b_end t mast.r
  let l := { l with offset := mte_parent_slot t mas.node }
  let l := { l with max := bn.pivots split }
  let r := { r with min := l.max + 1 }
  if ¬ mte_is_leaf mas.node then
    let p_slot := mast.orig_l.offset
    let (t, p_slot) := mas_set_split_parent t mast.orig_l l.node r.node
                         p_slot split
    let (t, _) := mas_set_split_parent t mast.orig_r l.node r.node
                    p_slot split
    (t, { mast with l := l, r := r })
  else (t, { mast with l := l, r := r })

/-- Function `mast_split_fill_bnode` of `src/lib/maple_tree.c` (lines
2480-2510): ascend (freeing the consumed node), then refill the big node
with the parent's prefix, the new left and right children, and the
parent's suffix starting `skip` slots past the insertion point. -/
def mast_split_fill_bnode (t : MTree) (mast : MastState) (mas : MaState)
    (free : MaTopiary) (skip : Nat) :
    MTree × MastState × MaState × MaTopiary × BigNode :=
  let old := mas.node
  let cp := ¬ mte_is_root t mas.node
  let (t, mas, free) :=
    if cp then
      let mas := mas_ascend t mas
      let (t, free) := mat_add t free old
      (t, { mas with offset := mte_parent_slot t mas.node }, free)
    else (t, mas, free)
  let bn := { zeroBigNode with min := mas.min }
  let bn :=
    if cp ∧ mast.l.offset ≠ 0 then
      mas_mab_cp t mas 0 (mast.l.offset - 1) bn 0
    else bn
  let split := bn.b_end
  let bn := mab_set_b_end t bn mast.l mast.l.node
  let r := { mast.r with offset := bn.b_end }
  let bn := mab_set_b_end t bn r r.node
  let bn :=
    if cp then
      mas_mab_cp t mas (split + skip)
        (mt_slots (mte_node_type mas.node) - 1) bn bn.b_end
    else bn
  let bn := { bn with b_end := bn.b_end - 1,
                      type := mte_node_type mas.node }
  (t, { mast with r := r }, mas, free, bn)

/-- Function `_mas_split_final_node` of `src/lib/maple_tree.c` (lines
2447-2470): build the single ancestor holding the split results. -/
def _mas_split_final_node (t : MTree) (mast : MastState) (mas : MaState)
    (bn : BigNode) (height : Nat) :
    MTree × MastState × MaState × BigNode :=
  let (bn, mas) :=
    if mte_is_root t mas.node then
      let bn := { bn with type := if mt_is_alloc t then .maple_arange_64
                                  else .maple_range_64 }
      (bn, { mas with depth := height })
    else (bn, mas)
  let (addr, mas, t) := mas_next_alloc t mas
  let ancestor := mt_mk_node addr bn.type
  let t := mte_set_parent t mast.l.node ancestor mast.l.offset
  let t := mte_set_parent t mast.r.node ancestor mast.r.offset
  let aaddr := mte_to_node ancestor
  let pword := (heapNode t (mte_to_node mas.node)).parent
  let t := heapSet t aaddr { heapNode t aaddr with parent := pword }
  let l := { mast.l with node := ancestor }
  let (t, l) := mab_mas_cp bn 0 (mt_slots bn.type - 1) t l
  (t, { mast with l := l }, mas, bn)

/-- Function `mas_push_data` of `src/lib/maple_tree.c` (lines 2534-2596):
try to push the overflow into an adjacent sibling instead of splitting;
the `split = slot_total - split` assignment is `unsigned char`
arithmetic. -/
def mas_push_data (t : MTree) (mas : MaState) (height : Nat)
    (mast : MastState) (bn : BigNode) (free : MaTopiary) (left : Bool) :
    Bool × MTree × MaState × MastState × BigNode × MaTopiary :=
  let slot_total := bn.b_end
  let tmp_mas := mas_dup_state (mkMas mas.index mas.last) mast.l
  let tmp_mas := { tmp_mas with node := mas.node }
  let (ok, tmp_mas) :=
    if left then mas_prev_sibling t tmp_mas else mas_next_sibling t tmp_mas
  if ¬ ok then (false, t, mas, mast, bn, free)
  else
    let end_ := mas_data_end t tmp_mas
    let slot_total := slot_total + end_
    let space := 2 * mt_slots (mte_node_type mas.node) - 1
    let space := if ma_is_leaf bn.type then space - 1 else space
    let space := if mas.max = ULONG_MAX then space - 1 else space
    if slot_total ≥ space then (false, t, mas, mast, bn, free)
    else
      let bn := { bn with b_end := bn.b_end + 1 }
      let bn :=
        if left then
          let bn := mab_shift_right bn (end_ + 1)
          let bn := mas_mab_cp t tmp_mas 0 end_ bn 0
          { bn with b_end := slot_total + 1 }
        else mas_mab_cp t tmp_mas 0 end_ bn bn.b_end
      let split := mt_slots bn.type - 1
      let (t, mas, mast, free, split) :=
        if left then
          let (t, free) := mat_add t free mas.node
          let mas := mas_dup_state mas tmp_mas
          let tmp_mas := { tmp_mas with node := mast.l.node }
          let l := mas_dup_state mast.l tmp_mas
          (t, mas, { mast with l := l }, free, split)
        else
          let (t, free) := mat_add t free tmp_mas.node
          let tmp_mas := { tmp_mas with node := mast.r.node }
          let r := mas_dup_state mast.r tmp_mas
          (t, mas, { mast with r := r }, free,
           (slot_total + 256 - split) % 256)
      let split := mab_no_null_split bn split (mt_slots bn.type)
      let mast :=
        if left then
          { mast with orig_l :=
              { mast.orig_l with offset := mast.orig_l.offset + end_ + 1 } }
        else mast
      let (t, mast) := mast_split_data t mast mas bn split
      let (t, mast, mas, free, bn) := mast_split_fill_bnode t mast mas free 2
      let (t, mast, mas, bn) := _mas_split_final_node t mast mas bn
                                  (height + 1)
      (true, t, mas, mast, bn, free)

/-- The `while (height++ <= mas->full_cnt)` loop of `mas_split` of
`src/lib/maple_tree.c` (lines 2638-2659). -/
def mas_split_loop (t : MTree) (mas : MaState) (mast : MastState)
    (bn : BigNode) (free : MaTopiary) (height : Nat) :
    Nat → MTree × MaState × MastState × BigNode × MaTopiary
  | 0 => (t, mas, mast, bn, free)
  | fuel + 1 =>
    if ¬ ((height : Int) ≤ mas.full_cnt) then (t, mas, mast, bn, free)
    else
      let height := height + 1
      if ¬ ((height : Int) ≤ mas.full_cnt) then
        let (t, mast, mas, bn) := _mas_split_final_node t mast mas bn height
        (t, mas, mast, bn, free)
      else
        let l_mas := mas_dup_state mast.l mas
        let r_mas := mas_dup_state mast.r mas
        let (laddr, mas, t) := mas_next_alloc t mas
        let l_mas := { l_mas with node := mt_mk_node laddr bn.type }
        let (raddr, mas, t) := mas_next_alloc t mas
        let r_mas := { r_mas with node := mt_mk_node raddr bn.type }
        let mast := { mast with l := l_mas, r := r_mas }
        let (pushed, t, mas, mast, bn, free) :=
          mas_push_data t mas height mast bn free true
        if pushed then (t, mas, mast, bn, free)
        else
          let (pushed, t, mas, mast, bn, free) :=
            mas_push_data t mas height mast bn free false
          if pushed then (t, mas, mast, bn, free)
          else
            let (split, _mid_split) := mab_calc_split bn
            let (t, mast) := mast_split_data t mast mas bn split
            let mast := { mast with r := { mast.r with max := mas.max } }
            let (t, mast, mas, free, bn) :=
              mast_split_fill_bnode t mast mas free 1
            let mast := { mast with
              orig_l := mas_dup_state mast.orig_l mast.l,
              orig_r := mas_dup_state mast.orig_r mast.r }
            mas_split_loop t mas mast bn free height fuel

/-- Function `mas_wmb_replace` of `src/lib/maple_tree.c` (lines
2146-2168), with a NULL destroy list as passed by `mas_split`. -/
def mas_wmb_replace (t : MTree) (mas : MaState) (free : MaTopiary) :
    MTree :=
  let t := mas_replace t mas true
  let t := if ¬ mte_is_leaf mas.node then mas_descend_adopt t mas else t
  let t := mat_free t free
  if mte_is_leaf mas.node then t
  else mas_update_gap t mas

/-- Function `mas_split` of `src/lib/maple_tree.c` (lines 2610-2666). -/
def mas_split (t : MTree) (mas : MaState) (bn : BigNode) :
    Nat × MaState × MTree :=
  let mas := mas_node_cnt mas (1 + 2 * mas.full_cnt).toNat
  let mast : MastState :=
    { l := mkMas mas.index mas.last, m := mkMas mas.index mas.last,
      r := mkMas mas.index mas.last,
      orig_l := mkMas mas.index mas.last,
      orig_r := mkMas mas.index mas.last }
  let mas := { mas with depth := mt_height t.ma_flags }
  let (t, mas, mast, _bn, free) :=
    mas_split_loop t mas mast bn ⟨[]⟩ 0 (MAPLE_NODE_SLOTS + 1)
  let (t, free) := mat_add t free mas.node
  let mas := { mas with node := mast.l.node }
  let t := mas_wmb_replace t mas free
  (1, mas, t)

/-- The tail-clearing loop of `mas_reuse_node`. -/
def mas_reuse_clear (t : MTree) (node : Nat) (i : Nat) : Nat → MTree
  | 0 => t
  | fuel + 1 =>
    if i < mt_slots (mte_node_type node) then
      let t := mte_set_rcu_slot t node i 0
      let t :=
        if i < mt_pivots (mte_node_type node) then mte_set_pivot t node i 0
        else t
      mas_reuse_clear t node (i + 1) fuel
    else t

/-- Function `mas_reuse_node` of `src/lib/maple_tree.c` (lines 2667-2691):
rewrite the live node in place unless the tree is in RCU mode. -/
def mas_reuse_node (t : MTree) (mas : MaState) (b : BigNode)
    (end_ : Nat) : Bool × MTree × MaState :=
  if mas_in_rcu_flags t.ma_flags then (false, t, mas)
  else
    let (t, mas) := mab_mas_cp b 0 b.b_end t mas
    let t :=
      if end_ > b.b_end then
        mas_reuse_clear t mas.node (b.b_end + 1) (MAPLE_NODE_SLOTS + 1)
      else t
    (true, t, mas)

/-!  Spanning-store engine. -/

/-- Function `mas_is_root_limits` of `src/lib/maple_tree.c`. -/
def mas_is_root_limits (mas : MaState) : Bool :=
  mas.min == 0 && mas.max == ULONG_MAX

/-- Function `mte_node_or_none` of `src/lib/maple_tree.c`. -/
def mte_node_or_none (enode : Nat) : Nat :=
  if enode ≠ 0 then enode else MAS_NONE

/-- Function `mas_cnt_positive` of `src/lib/maple_tree.c`. -/
def mas_cnt_positive (mas : MaState) : Int :=
  if mas.full_cnt < 0 then mas.full_cnt * (-1) else mas.full_cnt

/-- Function `mas_searchable` of `src/lib/maple_tree.c`. -/
def mas_searchable (mas : MaState) : Bool :=
  if mas_is_none mas then false
  else if mas_is_ptr mas then false
  else true

/-- Function `_mas_walk` of `src/lib/maple_tree.c`. -/
def _mas_walk (t : MTree) (mas : MaState) : Option (Bool × MaState) :=
  match _mas_range_walk t mas with
  | none => none
  | some (r, _, _, mas) => some (r, mas)

/-- Function `mas_dead_node` of `src/lib/maple_tree.c` (lines 3809-3821):
restart the walk at `index` when the current node has been replaced. -/
def mas_dead_node (t : MTree) (mas : MaState) (index : Nat) :
    Option (Bool × MaState) :=
  if ¬ mas_searchable mas then some (false, mas)
  else if ¬ mte_dead_node t mas.node then some (false, mas)
  else
    let mas := { mas with index := index, node := MAS_START }
    match _mas_walk t mas with
    | none => none
    | some (_, mas) => some (true, mas)

/-- Result of one outer iteration of `mas_prev_node` / `mas_next_node`:
returned, fell through to the ascend check, or restarting from the top. -/
inductive MasLoopRes where
  | done (mas : MaState)
  | cont (mas : MaState) (level : Nat)
  | redo (mas : MaState)

/-- The inner `do { ... } while (slot-- > 0)` of `mas_prev_node`
(lines 3256-3286). -/
def mas_prev_node_slots (t : MTree) (mas : MaState)
    (limit start_piv : Nat) (level : Nat) (slot : Nat) :
    Nat → Option MasLoopRes
  | 0 => none
  | fuel + 1 =>
    let pivot := mas_get_safe_pivot t mas slot
    let min := mas_get_safe_lower_bound t mas slot
    if pivot < limit then some (.done { mas with node := MAS_NONE })
    else if slot ≠ 0 ∧ pivot = 0 then some (.cont mas level)
    else
      let mn := mas_get_rcu_slot t mas slot
      if mt_is_empty mn then
        if slot = 0 then some (.cont mas level)
        else mas_prev_node_slots t mas limit start_piv level (slot - 1) fuel
      else if level = 1 then
        let mas := { mas with offset := slot, node := mn, max := pivot,
                              min := min }
        match mas_dead_node t mas start_piv with
        | none => none
        | some (dead, mas) =>
          if dead then some (.redo mas) else some (.done mas)
      else
        let mas := { mas with node := mn, max := pivot, min := min }
        let (slot, _) := _mas_data_end t mas (mte_node_type mn)
        let slot := slot + 1
        if slot = 0 then some (.cont mas (level - 1))
        else mas_prev_node_slots t mas limit start_piv (level - 1) (slot - 1)
               fuel

/-- The outer `while (1)` of `mas_prev_node`. -/
def mas_prev_node_loop (t : MTree) (mas : MaState)
    (limit start_piv : Nat) (level : Nat) : Nat → Option MaState
  | 0 => none
  | fuel + 1 =>
    let slot := mte_parent_slot t mas.node
    let mas := mas_ascend t mas
    let level := level + 1
    match mas_dead_node t mas start_piv with
    | none => none
    | some (dead, mas) =>
      if dead then
        if mte_is_root t mas.node ∨ mas.node = MAS_NONE then
          some { mas with node := MAS_NONE }
        else mas_prev_node_loop t mas limit start_piv 0 fuel
      else
        let step : Option MasLoopRes :=
          if slot = 0 then some (.cont mas level)
          else mas_prev_node_slots t mas limit start_piv level (slot - 1)
                 (walkFuel t * MAPLE_NODE_SLOTS)
        match step with
        | none => none
        | some (.done mas) => some mas
        | some (.redo mas) =>
          if mte_is_root t mas.node ∨ mas.node = MAS_NONE then
            some { mas with node := MAS_NONE }
          else mas_prev_node_loop t mas limit start_piv 0 fuel
        | some (.cont mas level) =>
          if mte_is_root t mas.node then some { mas with node := MAS_NONE }
          else mas_prev_node_loop t mas limit start_piv level fuel

/-- Function `mas_prev_node` of `src/lib/maple_tree.c` (lines
3230-3295). -/
def mas_prev_node (t : MTree) (mas : MaState) (limit : Nat) :
    Option MaState :=
  let start_piv := mas_get_safe_pivot t mas mas.offset
  if mte_is_root t mas.node ∨ mas.node = MAS_NONE then
    some { mas with node := MAS_NONE }
  else mas_prev_node_loop t mas limit start_piv 0 (walkFuel t * 4)

/-- The inner `while (++slot < count)` of `mas_next_node` (lines
3332-3363); `slot` is the value already incremented. -/
def mas_next_node_slots (t : MTree) (mas : MaState)
    (max_ start_piv prev_piv : Nat) (level : Nat) (slot : Nat) :
    Nat → Option MasLoopRes
  | 0 => none
  | fuel + 1 =>
    if slot < mt_slots (mte_node_type mas.node) then
      let pivot := mas_get_safe_pivot t mas slot
      if prev_piv > max_ then some (.done { mas with node := MAS_NONE })
      else if slot ≠ 0 ∧ pivot = 0 then some (.cont mas level)
      else
        let mn := mas_get_rcu_slot t mas slot
        if mt_is_empty mn then
          mas_next_node_slots t mas max_ start_piv pivot level (slot + 1)
            fuel
        else
          let mas := { mas with min := prev_piv + 1, max := pivot }
          if level = 1 then
            let mas := { mas with offset := slot, node := mn }
            match mas_dead_node t mas start_piv with
            | none => none
            | some (dead, mas) =>
              if dead then some (.redo mas) else some (.done mas)
          else
            let mas := { mas with node := mn }
            mas_next_node_slots t mas max_ start_piv prev_piv (level - 1) 0
              fuel
    else some (.cont mas level)

/-- The outer `while (1)` of `mas_next_node`. -/
def mas_next_node_loop (t : MTree) (mas : MaState) (max_ : Nat)
    (level : Nat) : Nat → Option MaState
  | 0 => none
  | fuel + 1 =>
    if mte_is_root t mas.node ∨ mas.node = MAS_NONE then
      some { mas with node := MAS_NONE }
    else
      let slot := mas.offset
      let start_piv := mas_get_safe_pivot t mas slot
      let level := level + 1
      let mas := mas_ascend t mas
      match mas_dead_node t mas start_piv with
      | none => none
      | some (dead, mas) =>
        if dead then mas_next_node_loop t mas max_ 0 fuel
        else
          let prev_piv := mas_get_safe_pivot t mas slot
          match mas_next_node_slots t mas max_ start_piv prev_piv level
                  (slot + 1) (walkFuel t * MAPLE_NODE_SLOTS) with
          | none => none
          | some (.done mas) => some mas
          | some (.redo mas) => mas_next_node_loop t mas max_ 0 fuel
          | some (.cont mas level) =>
            if mte_is_root t mas.node then
              some { mas with node := MAS_NONE }
            else
              let mas := { mas with offset := mte_parent_slot t mas.node }
              mas_next_node_loop t mas max_ level fuel

/-- Function `mas_next_node` of `src/lib/maple_tree.c` (lines
3304-3374). -/
def mas_next_node (t : MTree) (mas : MaState) (max_ : Nat) :
    Option MaState :=
  mas_next_node_loop t mas max_ 0 (walkFuel t * 4)

/-- Function `mas_extend_null` of `src/lib/maple_tree.c` with two
distinct cursors, as called by `mas_spanning_store` (the aliased
single-cursor form used by `_mas_store` is `mas_extend_null` above). -/
def mas_extend_null2 (t : MTree) (l_mas r_mas : MaState) :
    MaState × MaState :=
  let l_slot := l_mas.offset
  let r_slot := r_mas.offset
  let cp_r_slot := r_slot
  let content := mas_get_rcu_slot t l_mas l_slot
  let range_max := mas_get_safe_pivot t r_mas r_slot
  let range_min :=
    if l_slot ≠ 0 then mas_get_safe_pivot t l_mas (l_slot - 1) + 1
    else l_mas.min
  let l_mas := if content = 0 then { l_mas with index := range_min }
               else l_mas
  let l_mas :=
    if l_mas.index = range_min ∧ l_slot ≠ 0 ∧
       mas_get_rcu_slot t l_mas (l_slot - 1) = 0 then
      let l_mas :=
        if l_slot > 1 then
          { l_mas with index := mas_get_safe_pivot t l_mas (l_slot - 2) + 1 }
        else { l_mas with index := l_mas.min }
      { l_mas with offset := l_slot - 1 }
    else l_mas
  let (r_mas, cp_r_slot) :=
    if mas_get_rcu_slot t r_mas r_slot = 0 then
      ((if r_mas.last < range_max then { r_mas with last := range_max }
        else r_mas), cp_r_slot + 1)
    else (r_mas, cp_r_slot)
  let (r_mas, cp_r_slot) :=
    if r_mas.last = range_max ∧ r_mas.last < r_mas.max ∧
       mas_get_rcu_slot t r_mas (r_slot + 1) = 0 then
      ({ r_mas with last := mas_get_safe_pivot t r_mas (r_slot + 1) },
       cp_r_slot + 1)
    else (r_mas, cp_r_slot)
  let r_mas :=
    if r_slot ≠ 0 ∧ r_mas.last = 0 then { r_mas with last := r_mas.max }
    else r_mas
  (l_mas, { r_mas with offset := cp_r_slot })

/-- Model of `mte_destroy_walk` of `src/lib/maple_tree.c`: the sub-tree
under the node is handed to deferred reclamation, which marks every node
dead before freeing it; the model marks the records dead and keeps them
in the heap. -/
def mte_destroy_subtree (t : MTree) (enode : Nat) : Nat → MTree
  | 0 => t
  | fuel + 1 =>
    let t := mte_set_node_dead t enode
    if mte_is_leaf enode then t
    else
      (List.range (mt_slots (mte_node_type enode))).foldl
        (fun t i =>
          let child := mte_get_rcu_slot t enode i
          if child ≠ 0 then mte_destroy_subtree t child fuel else t) t

/-- Function `mat_free` in its recursive form (`mat_free(mat, true)`):
destroy-walk every chained sub-tree. -/
def mat_free_destroy (t : MTree) (mat : MaTopiary) : MTree :=
  mat.list.foldl (fun t e => mte_destroy_subtree t e (walkFuel t)) t

/-- Function `mast_topiary` of `src/lib/maple_tree.c` (lines 1805-1835):
queue the sub-trees strictly between the two original boundary slots for
destruction. -/
def mast_topiary (t : MTree) (mast : MastState) (destroy : MaTopiary) :
    MTree × MastState × MaTopiary :=
  let l_index := mast.orig_l.index
  let orig_l := { mast.orig_l with index := mast.orig_l.last }
  let (_, _, _, orig_l) :=
    mas_node_walk t orig_l (mte_node_type orig_l.node)
  let orig_l := { orig_l with index := l_index }
  let l_slot := orig_l.offset
  let r_slot := mast.orig_r.offset
  if orig_l.node = mast.orig_r.node then
    let (t, destroy) :=
      (List.range MAPLE_NODE_SLOTS).foldl
        (fun (p : MTree × MaTopiary) slot =>
          if l_slot + 1 ≤ slot ∧ slot < r_slot then
            mat_add p.1 p.2 (mas_get_rcu_slot p.1 orig_l slot)
          else p) (t, destroy)
    (t, { mast with orig_l := orig_l }, destroy)
  else if mte_is_leaf mast.orig_r.node then
    (t, { mast with orig_l := orig_l }, destroy)
  else
    let end_ := mas_data_end t orig_l
    let (t, destroy) :=
      (List.range (MAPLE_NODE_SLOTS + 1)).foldl
        (fun (p : MTree × MaTopiary) slot =>
          if l_slot + 1 ≤ slot ∧ slot ≤ end_ then
            mat_add p.1 p.2 (mas_get_rcu_slot p.1 orig_l slot)
          else p) (t, destroy)
    let (t, destroy) :=
      (List.range MAPLE_NODE_SLOTS).foldl
        (fun (p : MTree × MaTopiary) slot =>
          if slot < r_slot then
            mat_add p.1 p.2 (mas_get_rcu_slot p.1 mast.orig_r slot)
          else p) (t, destroy)
    (t, { mast with orig_l := orig_l }, destroy)

/-- Function `mast_rebalance_next` of `src/lib/maple_tree.c` (lines
1837-1848): pull the contents of the next node into the big node. -/
def mast_rebalance_next (t : MTree) (mast : MastState) (bn : BigNode)
    (free : MaTopiary) (old_r : Nat) :
    MTree × MastState × BigNode × MaTopiary :=
  let b_end := bn.b_end
  let end_ := mas_data_end t mast.orig_r
  let bn := mas_mab_cp t mast.orig_r 0 end_ bn b_end
  let (t, free) := mat_add t free old_r
  let orig_r := { mast.orig_r with last := mast.orig_r.max }
  let orig_l :=
    if old_r = mast.orig_l.node then
      { mast.orig_l with node := orig_r.node }
    else mast.orig_l
  (t, { mast with orig_l := orig_l, orig_r := orig_r }, bn, free)

/-- Function `mast_rebalance_prev` of `src/lib/maple_tree.c` (lines
1850-1865): shift the big node right and pull in the previous node. -/
def mast_rebalance_prev (t : MTree) (mast : MastState) (bn : BigNode)
    (free : MaTopiary) (old_l : Nat) :
    MTree × MastState × BigNode × MaTopiary :=
  let end_ := mas_data_end t mast.orig_l
  let b_end := bn.b_end
  let bn := mab_shift_right bn (end_ + 1)
  let bn := mas_mab_cp t mast.orig_l 0 end_ bn 0
  let (t, free) := mat_add t free old_l
  let orig_r :=
    if mast.orig_r.node = old_l then
      { mast.orig_r with node := mast.orig_l.node }
    else mast.orig_r
  let l := { mast.l with min := mast.orig_l.min }
  let orig_l := { mast.orig_l with index := mast.orig_l.min }
  let bn := { bn with b_end := end_ + 1 + b_end }
  let l := { l with offset := l.offset + end_ + 1 }
  (t, { mast with l := l, orig_l := orig_l, orig_r := orig_r }, bn, free)

/-- Function `mast_sibling_rebalance_right` of `src/lib/maple_tree.c`
(lines 1888-1902). -/
def mast_sibling_rebalance_right (t : MTree) (mast : MastState)
    (bn : BigNode) (free : MaTopiary) :
    Bool × MTree × MastState × BigNode × MaTopiary :=
  let old_r := mast.orig_r.node
  let old_l := mast.orig_l.node
  let (ok, orig_r) := mas_next_sibling t mast.orig_r
  if ok then
    let mast := { mast with orig_r := orig_r }
    let (t, mast, bn, free) := mast_rebalance_next t mast bn free old_r
    (true, t, mast, bn, free)
  else
    let (ok, orig_l) := mas_prev_sibling t mast.orig_l
    if ok then
      let mast := { mast with orig_l := orig_l }
      let (t, mast, bn, free) := mast_rebalance_prev t mast bn free old_l
      (true, t, mast, bn, free)
    else (false, t, mast, bn, free)

/-- Function `mast_cousin_rebalance_right` of `src/lib/maple_tree.c`
(lines 1913-1941). -/
def mast_cousin_rebalance_right (t : MTree) (mast : MastState)
    (bn : BigNode) (free : MaTopiary) :
    Option (Bool × MTree × MastState × BigNode × MaTopiary) :=
  let old_l := mast.orig_l.node
  let old_r := mast.orig_r.node
  let tmp := mas_dup_state (mkMas mast.orig_r.index mast.orig_r.last)
               mast.orig_r
  let orig_r := { mast.orig_r with
                  offset := mte_parent_slot t mast.orig_r.node }
  match mas_next_node t orig_r ULONG_MAX with
  | none => none
  | some orig_r =>
    if ¬ mas_is_none orig_r then
      let mast := { mast with orig_r := orig_r }
      let (t, mast, bn, free) := mast_rebalance_next t mast bn free old_r
      some (true, t, mast, bn, free)
    else
      let orig_r := mas_dup_state orig_r mast.orig_l
      let r := mas_dup_state mast.r mast.l
      let mast := { mast with orig_r := orig_r, r := r }
      match mas_prev_node t mast.orig_l 0 with
      | none => none
      | some orig_l =>
        if mas_is_none orig_l then
          let orig_l := mas_dup_state orig_l mast.orig_r
          let orig_r := mas_dup_state mast.orig_r tmp
          some (false, t,
                { mast with orig_l := orig_l, orig_r := orig_r }, bn, free)
        else
          let orig_l := { orig_l with offset := 0 }
          let mast := { mast with orig_l := orig_l }
          let (t, mast, bn, free) := mast_rebalance_prev t mast bn free
                                        old_l
          some (true, t, mast, bn, free)

/-- Function `mast_ascend_free` of `src/lib/maple_tree.c` (lines
1950-1981): free the consumed boundary nodes, ascend both original
cursors and re-walk them in the parents. -/
def mast_ascend_free (t : MTree) (mast : MastState) (free : MaTopiary) :
    MTree × MastState × MaTopiary :=
  let left := mast.orig_l.node
  let right := mast.orig_r.node
  let orig_l := mas_ascend t mast.orig_l
  let orig_r := mas_ascend t mast.orig_r
  let (t, free) := mat_add t free left
  let (t, free) :=
    if left ≠ right then mat_add t free right else (t, free)
  let orig_r := { orig_r with offset := 0, index := mast.r.max }
  let orig_r :=
    if orig_r.last < orig_r.index then { orig_r with last := orig_r.index }
    else orig_r
  let (walked, _, _, orig_r) :=
    mas_node_walk t orig_r (mte_node_type orig_r.node)
  let orig_r :=
    if ¬ walked then { orig_r with offset := mas_data_end t orig_r + 1 }
    else orig_r
  let orig_l := { orig_l with offset := 0, index := mast.l.min }
  let (_, _, _, orig_l) :=
    mas_node_walk t orig_l (mte_node_type orig_l.node)
  (t, { mast with orig_l := orig_l, orig_r := orig_r }, free)

/-- Function `mas_new_ma_node` of `src/lib/maple_tree.c` (lines
1993-1997): allocate a node and encode it with the big node's type. -/
def mas_new_ma_node (t : MTree) (mas : MaState) (b : BigNode) :
    Nat × MaState × MTree :=
  let (addr, mas, t) := mas_next_alloc t mas
  (mt_mk_node addr b.type, mas, t)

/-- Function `mas_mab_to_node` of `src/lib/maple_tree.c` (lines
2010-2037): allocate the left (always), right and middle (as needed)
nodes; returns `(split, left, right, middle, mid_split)` with the updated
allocator state. -/
def mas_mab_to_node (t : MTree) (mas : MaState) (b : BigNode) :
    Nat × Nat × Nat × Nat × Nat × MaState × MTree :=
  let slot_cnt := mt_slots b.type
  let (left, mas, t) := mas_new_ma_node t mas b
  let (split, right, mid_split, mas, t) :=
    if b.b_end < slot_cnt then (b.b_end, 0, 0, mas, t)
    else
      let (split, mid_split) := mab_calc_split b
      let (right, mas, t) := mas_new_ma_node t mas b
      (split, right, mid_split, mas, t)
  let (middle, mas, t) :=
    if mid_split ≠ 0 then
      let (m, mas, t) := mas_new_ma_node t mas b
      (m, mas, t)
    else (0, mas, t)
  (split, left, right, middle, mid_split, mas, t)

/-- Function `mte_mid_split_check` of `src/lib/maple_tree.c` (lines
2088-2104): advance the `(l, r, split)` window past the middle split. -/
def mte_mid_split_check (l r right slot split mid_split : Nat) :
    Nat × Nat × Nat :=
  if r = right then (l, r, split)
  else if slot < mid_split then (l, r, split)
  else (r, right, mid_split)

/-- Function `mast_set_split_parents` of `src/lib/maple_tree.c` (lines
2115-2142): re-parent the tracked `l`, `m` and `r` cursors under the new
left/middle/right nodes. -/
def mast_set_split_parents (t : MTree) (mast : MastState)
    (left middle right : Nat) (split mid_split : Nat) : MTree :=
  if mas_is_none mast.l then t
  else
    let l := left
    let r := if middle ≠ 0 then middle else right
    let slot := mast.l.offset
    let (l, r, split) := mte_mid_split_check l r right slot split mid_split
    let (t, slot) := mas_set_split_parent t mast.l l r slot split
    let (l, r, split) := mte_mid_split_check l r right slot split mid_split
    let (t, slot) := mas_set_split_parent t mast.m l r slot split
    let (l, r, split) := mte_mid_split_check l r right slot split mid_split
    let (t, _) := mas_set_split_parent t mast.r l r slot split
    t

/-- Function `mas_wmb_replace` of `src/lib/maple_tree.c` (lines
2143-2168) in its two-topiary form used by the spanning engine: replace,
adopt, free the consumed nodes and destroy-walk the disconnected
sub-trees. -/
def mas_wmb_replace2 (t : MTree) (mas : MaState)
    (free destroy : MaTopiary) : MTree :=
  let t := mas_replace t mas true
  let t := if ¬ mte_is_leaf mas.node then mas_descend_adopt t mas else t
  let t := mat_free t free
  let t := mat_free_destroy t destroy
  if mte_is_leaf mas.node then t
  else mas_update_gap t mas

/-- The `do { mast_ascend_free; mast_topiary; } while (!root)` loop of
`mast_new_root`. -/
def mast_new_root_loop (t : MTree) (mast : MastState)
    (free destroy : MaTopiary) :
    Nat → Option (MTree × MastState × MaTopiary × MaTopiary)
  | 0 => none
  | fuel + 1 =>
    let (t, mast, free) := mast_ascend_free t mast free
    let (t, mast, destroy) := mast_topiary t mast destroy
    if ¬ mte_is_root t mast.orig_l.node then
      mast_new_root_loop t mast free destroy fuel
    else some (t, mast, free, destroy)

/-- Function `mast_new_root` of `src/lib/maple_tree.c` (lines
2169-2185): make `mast->l` the new root and consume everything above the
original boundary cursors. -/
def mast_new_root (t : MTree) (mas : MaState) (mast : MastState)
    (free destroy : MaTopiary) :
    Option (MTree × MastState × MaTopiary × MaTopiary) :=
  let laddr := mte_to_node mast.l.node
  let t := heapSet t laddr
    { heapNode t laddr with parent := treeAddr ||| MA_ROOT_PARENT }
  let step :=
    if ¬ mte_dead_node t mast.orig_l.node ∧
       ¬ mte_is_root t mast.orig_l.node then
      mast_new_root_loop t mast free destroy (walkFuel t)
    else some (t, mast, free, destroy)
  match step with
  | none => none
  | some (t, mast, free, destroy) =>
    if mast.orig_l.node ≠ mas.node ∧
       mast.l.depth > mt_height t.ma_flags then
      let (t, free) := mat_add t free mas.node
      some (t, mast, free, destroy)
    else some (t, mast, free, destroy)

/-- Function `mast_cp_to_nodes` of `src/lib/maple_tree.c` (lines
2187-2219): copy the big node into the new left/middle/right nodes and
set the cursors' ranges. -/
def mast_cp_to_nodes (t : MTree) (mast : MastState) (b : BigNode)
    (left middle right : Nat) (split mid_split : Nat) :
    MTree × MastState :=
  let l := { mast.l with node := mte_node_or_none left }
  let m := { mast.m with node := mte_node_or_none middle }
  let r := { mast.r with node := mte_node_or_none right }
  let l := { l with min := mast.orig_l.min, max := b.pivots split }
  let (t, l) := mab_mas_cp b 0 split t l
  let r := { r with max := l.max }
  let (t, m, split) :=
    if middle ≠ 0 then
      let (t, m) := mab_mas_cp b (1 + split) mid_split t m
      let m := { m with min := b.pivots split + 1,
                        max := b.pivots mid_split }
      (t, m, mid_split)
    else (t, m, split)
  let (t, r) :=
    if right ≠ 0 then
      let (t, r) := mab_mas_cp b (1 + split) b.b_end t r
      let r := { r with min := b.pivots split + 1,
                        max := b.pivots b.b_end }
      (t, r)
    else (t, r)
  (t, { mast with l := l, m := m, r := r })

/-- Function `mast_combine_cp_left` of `src/lib/maple_tree.c` (lines
2221-2229). -/
def mast_combine_cp_left (t : MTree) (mast : MastState) (b : BigNode) :
    BigNode :=
  let l_slot := mast.orig_l.offset
  if l_slot = 0 then b
  else mas_mab_cp t mast.orig_l 0 (l_slot - 1) b 0

/-- Function `mast_combine_cp_right` of `src/lib/maple_tree.c` (lines
2234-2243). -/
def mast_combine_cp_right (t : MTree) (mast : MastState) (b : BigNode) :
    BigNode × MastState :=
  if b.pivots (b.b_end - 1) ≥ mast.orig_r.max then (b, mast)
  else
    let b := mas_mab_cp t mast.orig_r (mast.orig_r.offset + 1)
               (mas_data_end t mast.orig_r) b b.b_end
    (b, { mast with orig_r := { mast.orig_r with
                                 last := mast.orig_r.max } })

/-- Function `mast_sufficient` of `src/lib/maple_tree.c` (lines
2247-2252). -/
def mast_sufficient (mast : MastState) (b : BigNode) : Bool :=
  b.b_end > mt_min_slots (mte_node_type mast.orig_l.node)

/-- Function `mast_overflow` of `src/lib/maple_tree.c` (lines
2254-2259). -/
def mast_overflow (mast : MastState) (b : BigNode) : Bool :=
  b.b_end ≥ mt_slots (mte_node_type mast.orig_l.node)

/-- Function `mast_setup_bnode_for_split` of `src/lib/maple_tree.c`
(lines 2262-2267). -/
def mast_setup_bnode_for_split (mast : MastState) (b : BigNode) :
    BigNode :=
  { b with b_end := b.b_end - 1, min := mast.orig_l.min,
           type := mte_node_type mast.orig_l.node }

/-- The split half of one `while (count--)` iteration of
`mas_spanning_rebalance` (lines 2313-2321): set up the big node,
allocate the new nodes, re-parent the tracked cursors and copy the big
node out; returns the freshly built `(left, middle, right)`. -/
def mas_spanning_split_phase (t : MTree) (mas : MaState)
    (mast : MastState) (b : BigNode) :
    MTree × MaState × MastState × BigNode × Nat × Nat × Nat :=
  let b := mast_setup_bnode_for_split mast b
  let (split, left, right, middle, mid_split, mas, t) :=
    mas_mab_to_node t mas b
  let t := mast_set_split_parents t mast left middle right split
             mid_split
  let (t, mast) := mast_cp_to_nodes t mast b left middle right split
                     mid_split
  let b := { zeroBigNode with type := mte_node_type left }
  let mast := { mast with orig_l :=
    { mast.orig_l with depth := mast.orig_l.depth + 1 } }
  (t, mas, mast, b, left, middle, right)

/-- The combine half of one `while (count--)` iteration of
`mas_spanning_rebalance` (lines 2329-2340): ascend, pull in the
untouched parts of the parents and queue the consumed sub-trees. -/
def mas_spanning_combine_phase (t : MTree) (mast : MastState)
    (b : BigNode) (free destroy : MaTopiary)
    (left middle right : Nat) :
    MTree × MastState × BigNode × MaTopiary × MaTopiary :=
  let (t, mast, free) := mast_ascend_free t mast free
  let b := mast_combine_cp_left t mast b
  let mast := { mast with l := { mast.l with offset := b.b_end } }
  let b := mab_set_b_end t b mast.l left
  let b := mab_set_b_end t b mast.m middle
  let b := mab_set_b_end t b mast.r right
  let (b, mast) := mast_combine_cp_right t mast b
  let (t, mast, destroy) := mast_topiary t mast destroy
  let mast := { mast with orig_l :=
    { mast.orig_l with last := mast.orig_l.max } }
  (t, mast, b, free, destroy)

/-- The `while (count--)` loop of `mas_spanning_rebalance` (lines
2312-2360).  The boolean of the result tells whether the loop exited
through `goto new_root`; the last allocated left/middle/right nodes are
returned for the post-loop re-parenting. -/
def mas_spanning_rebalance_loop (t : MTree) (mas : MaState)
    (mast : MastState) (b : BigNode) (free destroy : MaTopiary)
    (left middle right : Nat) (count : Nat) :
    Nat → Option (Bool × MTree × MaState × MastState × BigNode ×
                  MaTopiary × MaTopiary × Nat × Nat × Nat)
  | 0 => none
  | fuel + 1 =>
    if count = 0 then
      some (false, t, mas, mast, b, free, destroy, left, middle, right)
    else
      let count := count - 1
      let (t, mas, mast, b, left, middle, right) :=
        mas_spanning_split_phase t mas mast b
      if mas_is_root_limits mast.l then
        some (true, t, mas, mast, b, free, destroy, left, middle, right)
      else
        let (t, mast, b, free, destroy) :=
          mas_spanning_combine_phase t mast b free destroy left middle
            right
        if mast_sufficient mast b ∨ mast_overflow mast b then
          mas_spanning_rebalance_loop t mas mast b free destroy left
            middle right count fuel
        else if mas_is_root_limits mast.orig_l then
          some (false, t, mas, mast, b, free, destroy, left, middle,
                right)
        else
          let (ok, t, mast, b, free) :=
            mast_sibling_rebalance_right t mast b free
          if ok then
            mas_spanning_rebalance_loop t mas mast b free destroy left
              middle right (if count = 0 then 1 else count) fuel
          else
            match mast_cousin_rebalance_right t mast b free with
            | none => none
            | some (ok, t, mast, b, free) =>
              if ok then
                mas_spanning_rebalance_loop t mas mast b free destroy
                  left middle right (if count = 0 then 1 else count)
                  fuel
              else
                some (false, t, mas, mast, b, free, destroy, left,
                      middle, right)

/-- The post-loop block of `mas_spanning_rebalance` (lines 2361-2370):
allocate one more ancestor from the big node and hang the last
left/middle/right under it. -/
def mas_spanning_ancestor (t : MTree) (mas : MaState) (mast : MastState)
    (b : BigNode) (left middle right : Nat) :
    MTree × MaState × MastState :=
  let (addr, mas, t) := mas_next_alloc t mas
  let lnode := mt_mk_node addr (mte_node_type mast.orig_l.node)
  let mast := { mast with
    l := { mast.l with node := lnode },
    orig_l := { mast.orig_l with depth := mast.orig_l.depth + 1 } }
  let (t, l) := mab_mas_cp b 0 (mt_slots b.type - 1) t mast.l
  let mast := { mast with l := l }
  let t := mte_set_parent t left l.node 0
  let (t, slot) :=
    if middle ≠ 0 then (mte_set_parent t middle l.node 1, 1)
    else (t, 0)
  let t :=
    if right ≠ 0 then mte_set_parent t right l.node (slot + 1)
    else t
  (t, mas, mast)

/-- The `new_root:` tail of `mas_spanning_rebalance` (lines 2372-2388):
fix the new subtree's parent, consume the replaced top node and splice
the result into the tree. -/
def mas_spanning_finish (t : MTree) (mas : MaState) (mast : MastState)
    (free destroy : MaTopiary) : Option (MaState × MTree) :=
  let step :=
    if mas_is_root_limits mast.l then
      mast_new_root t mas mast free destroy
    else
      let laddr := mte_to_node mast.l.node
      let oaddr := mte_to_node mast.orig_l.node
      let t := heapSet t laddr
        { heapNode t laddr with parent := (heapNode t oaddr).parent }
      some (t, mast, free, destroy)
  match step with
  | none => none
  | some (t, mast, free, destroy) =>
    let (t, free) :=
      if ¬ mte_dead_node t mast.orig_l.node then
        mat_add t free mast.orig_l.node
      else (t, free)
    let orig_l := mas_dup_state mast.orig_l mast.l
    let mas := { mas with depth := orig_l.depth }
    let t := mte_set_node_dead t mas.node
    let mas := mas_dup_state mas orig_l
    let t := mas_wmb_replace2 t mas free destroy
    some (mas, t)

/-- Function `mas_spanning_rebalance` of `src/lib/maple_tree.c` (lines
2288-2389): combine and re-split the subtree between the original
boundary cursors, then splice the new subtree into the tree. -/
def mas_spanning_rebalance (t : MTree) (mas : MaState) (mast : MastState)
    (b : BigNode) (count : Nat) : Option (Nat × MaState × MTree) :=
  let base := { mkMas mas.index mas.index with node := MAS_NONE }
  let mast := { mast with l := base, m := base, r := base }
  let free : MaTopiary := ⟨[]⟩
  let destroy : MaTopiary := ⟨[]⟩
  let mast := { mast with orig_l := { mast.orig_l with depth := 0 } }
  let (t, mast, destroy) := mast_topiary t mast destroy
  match mas_spanning_rebalance_loop t mas mast b free destroy 0 0 0 count
          (walkFuel t + count + 2) with
  | none => none
  | some (new_root, t, mas, mast, b, free, destroy, left, middle,
          right) =>
    let (t, mas, mast) :=
      if new_root then (t, mas, mast)
      else mas_spanning_ancestor t mas mast b left middle right
    match mas_spanning_finish t mas mast free destroy with
    | none => none
    | some (mas, t) => some (b.b_end, mas, t)

/-- Function `mas_rebalance` of `src/lib/maple_tree.c` (lines
2407-2444): pull a sibling's data into the big node and run the spanning
rebalance upwards. -/
def mas_rebalance (t : MTree) (mas : MaState) (b : BigNode) :
    Option (Nat × MaState × MTree) :=
  let empty_cnt := (mas_cnt_positive mas).toNat
  let b := { b with b_end := b.b_end + 1 }
  let b_end := b.b_end
  let mas := mas_node_cnt mas (1 + empty_cnt * 2)
  let l_mas := mas_dup_state (mkMas mas.index mas.last) mas
  let r_mas := mas_dup_state (mkMas mas.index mas.last) mas
  let (ok, r_mas) := mas_next_sibling t r_mas
  let (b, l_mas, r_mas) :=
    if ok then
      let b := mas_mab_cp t r_mas 0 (mas_data_end t r_mas) b b_end
      let r_mas := { r_mas with last := r_mas.max, index := r_mas.max }
      (b, l_mas, r_mas)
    else
      let (_, l_mas) := mas_prev_sibling t l_mas
      let shift := mas_data_end t l_mas + 1
      let b := mab_shift_right b shift
      let b := mas_mab_cp t l_mas 0 (shift - 1) b 0
      let b := { b with b_end := shift + b_end }
      let l_mas := { l_mas with index := l_mas.min, last := l_mas.min }
      (b, l_mas, r_mas)
  let base := mkMas mas.index mas.last
  let mast : MastState :=
    { l := base, m := base, r := base, orig_l := l_mas, orig_r := r_mas }
  mas_spanning_rebalance t mas mast b empty_cnt

/-- The two boundary walks of `mas_spanning_store` (lines 3070-3085):
walk just past the spanning range on the right and to its start on the
left. -/
def mas_spanning_walks (t : MTree) (mas : MaState) :
    Option (MaState × MaState) :=
  let r_mas := mas_dup_state (mkMas mas.index mas.index) mas
  let r_mas := { r_mas with depth := mas.depth }
  let r_mas :=
    if (r_mas.last + 1) % W ≠ 0 then { r_mas with last := r_mas.last + 1 }
    else r_mas
  let r_mas := { r_mas with index := r_mas.last, offset := 0 }
  match __mas_walk t r_mas (walkFuel t) with
  | none => none
  | some (_, _, _, r_mas) =>
    let r_mas := { r_mas with last := mas.last, index := mas.last }
    let l_mas := mas_dup_state (mkMas mas.index mas.index) mas
    let l_mas := { l_mas with depth := mas.depth, offset := 0 }
    match __mas_walk t l_mas (walkFuel t) with
    | none => none
    | some (_, _, _, l_mas) => some (l_mas, r_mas)

/-- The NULL-extension step of `mas_spanning_store` (lines 3089-3094). -/
def mas_spanning_extend (t : MTree) (mas l_mas r_mas : MaState) :
    MaState × MaState × MaState :=
  let (l_mas, r_mas) := mas_extend_null2 t l_mas r_mas
  let mas := { mas with index := l_mas.index }
  let l_mas := { l_mas with last := r_mas.last }
  let r_mas := { r_mas with index := r_mas.last }
  let mas := { mas with last := r_mas.last, offset := l_mas.offset }
  (mas, l_mas, r_mas)

/-- Function `mas_spanning_store` of `src/lib/maple_tree.c` (lines
3040-3111): set up the boundary cursors on both sides of the spanning
range, stage the store in a big node and rebalance. -/
def mas_spanning_store (t : MTree) (mas : MaState) (entry : Nat) :
    Option (Nat × MaState × MTree) :=
  let node_cnt : Nat :=
    if mas.full_cnt > 0 then mas.full_cnt.toNat
    else (mas_cnt_positive mas).toNat
  let node_cnt := node_cnt + 1 + mt_height t.ma_flags * 2
  let mas := mas_node_cnt mas node_cnt
  let b : BigNode := { zeroBigNode with
                       type := mte_node_type mas.node }
  match mas_spanning_walks t mas with
  | none => none
  | some (l_mas, r_mas) =>
    let (mas, l_mas, r_mas) :=
      if entry = 0 then mas_spanning_extend t mas l_mas r_mas
      else (mas, l_mas, r_mas)
    let (b_end, b) := mas_store_b_node t l_mas b entry
    let b := { b with b_end := b_end }
    let b := mas_mab_cp t r_mas r_mas.offset (mas_data_end t r_mas) b
               (b.b_end + 1)
    let l_mas := { l_mas with index := mas.index, last := mas.index }
    let count :=
      ((mas_cnt_positive mas + (mt_height t.ma_flags : Int) -
        (mas.depth : Int) + 1) % 256).toNat
    let base := mkMas mas.index mas.index
    let mast : MastState :=
      { l := base, m := base, r := base, orig_l := l_mas,
        orig_r := r_mas }
    mas_spanning_rebalance t mas mast b count

/-- Function `mas_commit_b_node` of `src/lib/maple_tree.c` (lines
2692-2728).  The rebalance path (`mas_rebalance`, which runs the spanning
rebalance engine) is outside the modelled fragment (`none`). -/
def mas_commit_b_node (t : MTree) (mas : MaState) (b : BigNode)
    (end_ : Nat) : Option (Nat × MaState × MTree) :=
  if b.b_end < mt_min_slots (mte_node_type mas.node) ∧
     ¬ mte_is_root t mas.node ∧ mt_height t.ma_flags > 1 then
    mas_rebalance t mas b
  else if b.b_end ≥ mt_slots (mte_node_type mas.node) then
    some (mas_split t mas b)
  else
    let (reused, t, mas) := mas_reuse_node t mas b end_
    if reused then some (2, mas, mas_update_gap t mas)
    else
      let mas := mas_node_cnt mas 1
      let (addr, mas, t) := mas_next_alloc t mas
      let new_node := mt_mk_node addr (mte_node_type mas.node)
      let old_parent := (heapNode t (mte_to_node mas.node)).parent
      let t := heapSet t addr { heapNode t addr with parent := old_parent }
      let mas := { mas with node := new_node }
      let (t, mas) := mab_mas_cp b 0 b.b_end t mas
      let t := mas_replace t mas false
      some (2, mas, mas_update_gap t mas)

/-- Function `mas_root_expand` of `src/lib/maple_tree.c` (lines
2730-2761): build a `maple_leaf_64` root for the write
`[mas->index, mas->last] := entry`, keeping the previous direct root entry
(if any) at index 0. -/
def mas_root_expand (t : MTree) (mas : MaState) (entry : Nat) :
    Nat × MaState × MTree :=
  let contents := t.ma_root
  let type := MapleType.maple_leaf_64
  let mas := mas_node_cnt mas 1
  let (addr, mas, t) := mas_next_alloc t mas
  let enode := mt_mk_node addr type
  let mas := { mas with node := enode }
  let t := heapSet t addr
    { heapNode t addr with parent := treeAddr ||| MA_ROOT_PARENT }
  let (slot, t) :=
    if contents ≠ 0 then (1, mte_set_rcu_slot t enode 0 contents)
    else (0, t)
  let (slot, t) :=
    if mas.index = 0 ∧ slot ≠ 0 then (slot - 1, t)
    else if mas.index > 1 then
      (slot + 1, mte_set_pivot t enode slot (mas.index - 1))
    else (slot, t)
  let t := mte_set_rcu_slot t enode slot entry
  let t := mte_set_pivot t enode slot mas.last
  let slot := slot + 1
  let t := { t with ma_root := mte_mk_root enode }
  let mas := { mas with depth := 1 }
  let t := mas_set_height t mas
  (slot, mas, t)

/-- Function `ma_root_ptr` of `src/lib/maple_tree.c` (lines 2762-2790):
handle a store into an empty or single-entry tree.  -EEXIST is only raised
for a non-overwriting store at `last == 0` over an existing root entry. -/
def ma_root_ptr (t : MTree) (mas : MaState) (entry : Nat)
    (overwrite : Bool) : Nat × MaState × MTree :=
  if xa_is_node t.ma_root then (0, mas, t)
  else if t.ma_root ≠ 0 ∧ mas.last = 0 ∧ ¬ overwrite then
    (0, mas_set_err mas (-17), t)
  else if mas.last ≠ 0 then mas_root_expand t mas entry
  else if entry &&& 3 = 2 then mas_root_expand t mas entry
  else (1, mas, { t with ma_root := entry })

/-- The part of `_mas_store` of `src/lib/maple_tree.c` past the
root-pointer handling: write walk, spanning check, -EEXIST check and
the leaf store with its append/commit paths (lines 3153-3214). -/
def mas_store_walked (t : MTree) (mas : MaState) (entry : Nat)
    (overwrite : Bool) : Option (Nat × MaState × MTree) :=
  match mas_wr_walk t mas entry with
  | none => none
  | some (walked, _rmin, rmax, mas) =>
    if ¬ walked ∧ mas.span_enode = 0 then some (0, mas, t)
    else if mas.span_enode ≠ 0 then
      if ¬ overwrite then some (0, mas_set_err mas (-17), t)
      else
        match mas_spanning_store t mas entry with
        | none => none
        | some (_, mas, t) => some (0, mas, t)
    else
      let slot := mas.offset
      let slot_cnt := mt_slots (mte_node_type mas.node)
      let content := mas_get_rcu_slot t mas slot
      if ¬ overwrite ∧ (mas.last > rmax ∨ content ≠ 0) then
        some (content, mas_set_err mas (-17), t)
      else
        let mas := if entry = 0 then mas_extend_null t mas else mas
        let slot := mas.offset
        let mas := { mas with offset := slot }
        let (b_end, b) := mas_store_b_node t mas zeroBigNode entry
        let b := { b with b_end := b_end, min := mas.min,
                          type := mte_node_type mas.node }
        let end_ := mas_data_end t mas
        if mas_can_append mas b slot_cnt end_ then
          let t := mas_store_append t mas.node slot_cnt end_ b b.b_end
          let t := mas_update_gap t mas
          some (content, mas, t)
        else
          let mas :=
            if b.b_end ≥ slot_cnt ∧ end_ < slot_cnt then mas_cnt_full mas
            else if b.b_end < mt_min_slots (mte_node_type mas.node) then
              mas_cnt_empty mas
            else mas
          match mas_commit_b_node t mas b end_ with
          | none => none
          | some (cret, mas, t) =>
            if cret = 0 then some (0, mas, t)
            else some (content, mas, t)

/-- Function `_mas_store` of `src/lib/maple_tree.c` (lines 3135-3215).
The result is the previous `content` word together with the final cursor
and tree; both the `ret > 2` and the `ret <= 2` exits of
`complete_at_root` return the (still NULL) content. -/
def _mas_store (t : MTree) (mas : MaState) (entry : Nat)
    (overwrite : Bool) : Option (Nat × MaState × MTree) :=
  let (e0, mas) := mas_start t mas
  if e0 ≠ 0 ∨ mas_is_none mas ∨ mas.node = MAS_ROOT then
    let (ret, mas, t) := ma_root_ptr t mas entry overwrite
    if mas_is_err mas then some (0, mas, t)
    else if ret ≠ 0 then some (0, mas, t)
    else mas_store_walked t mas entry overwrite
  else mas_store_walked t mas entry overwrite

/-- The `retry:` loop of the public mutation wrappers:
run `_mas_store`, repeat while `mas_nomem` asks for a retry. -/
def mas_store_retry (entry : Nat) (overwrite : Bool) :
    Nat → MTree → MaState → Option (MaState × MTree)
  | 0, _, _ => none
  | fuel + 1, t, mas =>
    match _mas_store t mas entry overwrite with
    | none => none
    | some (_, mas, t) =>
      let (again, mas) := mas_nomem mas
      if again then mas_store_retry entry overwrite fuel t mas
      else some (mas, t)

/-- Function `mtree_store_range` of `src/lib/maple_tree.c` (lines
4686-4709): validation, locked store, error translation. -/
def mtree_store_range (t : MTree) (first last entry : Nat) :
    Option (Int × MTree) :=
  if xa_is_advanced entry then some (-22, t)
  else if first > last then some (-22, t)
  else
    match mas_store_retry entry true 2 t (mkMas first last) with
    | none => none
    | some (mas, t) =>
      if mas_is_err mas then some (xa_err mas.node, t)
      else some (0, t)

/-- Function `mtree_store` of `src/lib/maple_tree.c`. -/
def mtree_store (t : MTree) (index entry : Nat) : Option (Int × MTree) :=
  mtree_store_range t index index entry

/-- Function `mtree_insert_range` of `src/lib/maple_tree.c` (lines
4718-4741): like `mtree_store_range` but without overwriting. -/
def mtree_insert_range (t : MTree) (first last entry : Nat) :
    Option (Int × MTree) :=
  if xa_is_advanced entry then some (-22, t)
  else if first > last then some (-22, t)
  else
    match mas_store_retry entry false 2 t (mkMas first last) with
    | none => none
    | some (mas, t) =>
      if mas_is_err mas then some (xa_err mas.node, t)
      else some (0, t)

/-- Function `mtree_insert` of `src/lib/maple_tree.c`. -/
def mtree_insert (t : MTree) (index entry : Nat) : Option (Int × MTree) :=
  mtree_insert_range t index index entry

/-!  Allocation-mode search (`mas_alloc`, `mtree_alloc_range`). -/

/-- Function `mas_alloc` of `src/lib/maple_tree.c` (lines 4109-4147).  Its
documentation promises: find the lowest location in the min-max window
which fits the allocation, set `*index` to that value; 0 on success,
-ENOMEM or -EBUSY otherwise.  Only the empty/single-entry branch is
modelled: the in-tree gap search (`mas_awalk` / `mas_fill_gap`) is outside
the modelled fragment (`none`).  Results are the C `int` return (the
branch `return mte_get_pivot(...)` converts an `unsigned long` pivot to
`int`), the value written through `*index` (`none` when it is never
written), and the final states. -/
def mas_alloc (t : MTree) (mas : MaState) (entry _size : Nat) :
    Option (Int × Option Nat × MaState × MTree) :=
  let (_, mas) := mas_start t mas
  if mas_is_none mas ∨ mas_is_ptr mas then
    let (_, mas, t) := mas_root_expand t mas entry
    if mas_is_err mas then some (xa_err mas.node, none, mas, t)
    else if mas.index = 0 then
      some (toCInt (mte_get_pivot t mas.node 0), none, mas, t)
    else
      some (toCInt (mte_get_pivot t mas.node 1), none, mas, t)
  else none

/-- The `retry:` loop of `mtree_alloc_range`. -/
def mas_alloc_retry (entry size min_ max_ : Nat) :
    Nat → MTree → MaState → Option (Int × Option Nat × MaState × MTree)
  | 0, _, _ => none
  | fuel + 1, t, mas =>
    let mas := { mas with offset := 0, index := min_, last := max_ - size }
    match mas_alloc t mas entry size with
    | none => none
    | some (ret, idx, mas, t) =>
      let (again, mas) := mas_nomem mas
      if again then mas_alloc_retry entry size min_ max_ fuel t mas
      else some (ret, idx, mas, t)

/-- Function `mtree_alloc_range` of `src/lib/maple_tree.c` (lines
4749-4782): validation then the locked `mas_alloc` retry loop.  The
second component is the value stored through `startp` (`none` when the
call never writes it). -/
def mtree_alloc_range (t : MTree) (entry size min_ max_ : Nat) :
    Option (Int × Option Nat × MTree) :=
  if ¬ mt_is_alloc t then some (-22, none, t)
  else if mt_is_reserved entry then some (-22, none, t)
  else if min_ > max_ then some (-22, none, t)
  else if max_ < size then some (-22, none, t)
  else if size = 0 then some (-22, none, t)
  else
    match mas_alloc_retry entry size min_ max_ 2 t
            (mkMas min_ (max_ - size)) with
    | none => none
    | some (ret, idx, _, t) => some (ret, idx, t)

/-!  Concrete states used by the claim theorems. -/

/-- Tree after `mtree_store_range(mt, 1, 1, A)` on an empty tree
(A = 8192, an ordinary aligned pointer value). -/
def c1_tree : MTree :=
  ((mtree_store_range mtEmpty 1 1 8192).getD (0, mtEmpty)).2

/-- Result of `mtree_alloc_range(mt, &s, A, 16, 0, ULONG_MAX)` on an empty
allocation-mode tree. -/
def c2_res : Option (Int × Option Nat × MTree) :=
  mtree_alloc_range mtEmptyAlloc 8192 16 0 ULONG_MAX

/-- Tree resulting from that allocation call. -/
def c2_tree : MTree := (c2_res.getD (0, none, mtEmptyAlloc)).2.2

/-- A write state sitting on a leaf node: write `[5, 10]`, node range
`[0, 10]` (so `last` equals the node's max), no spanning ancestor. -/
def c3mas : MaState :=
  { index := 5, last := 10, node := mt_mk_node 8192 .maple_leaf_64,
    min := 0, max := 10, offset := 0, allocCnt := 0, span_enode := 0,
    full_cnt := 0, depth := 0 }

/-- Claim C3's classification, formalized from the spec's words: a node is
classified spanning exactly when `last >= pivot[i]` and either the node is
internal, or the node is a leaf and `last >=` the node's max; except that
a write whose `last` equals ULONG_MAX and which exactly fills the node's
`[min, max]` is never spanning.  The entry value plays no role
("regardless of whether the entry is NULL"). -/
def spanClaimC3 (mas : MaState) (piv : Nat) : Bool :=
  decide (piv ≤ mas.last) &&
  (!(mte_is_leaf mas.node) || decide (mas.max ≤ mas.last)) &&
  !(decide (mas.last = ULONG_MAX) && decide (mas.index = mas.min) &&
    decide (mas.last = mas.max))

/-- Tree after `mtree_insert(mt, 0, A)` on an empty tree (a direct root
pointer entry at `[0, 0]`). -/
def c4_t1 : MTree := ((mtree_insert mtEmpty 0 8192).getD (0, mtEmpty)).2

/-- Result of the subsequent `mtree_insert_range(mt, 0, 5, B)`
(B = 12288), which intersects the occupied `[0, 0]`. -/
def c4_res : Option (Int × MTree) := mtree_insert_range c4_t1 0 5 12288

/-- Tree after the second insert. -/
def c4_t2 : MTree := (c4_res.getD (0, c4_t1)).2

/-- Tree after storing the reserved entry 2050 (an internal-tagged value
below 4096 but above the retry sentinel) over `[10, 20]`. -/
def c5_tree : MTree :=
  ((mtree_store_range mtEmpty 10 20 2050).getD (0, mtEmpty)).2

/-- The leaf ranges `(start, end, entry)` of the subtree under `enode`
covering `[min, max]`, in ascending index order, read off the node
layout: pivot `i` closes the range of slot `i`, a zero pivot past slot 0
(and any slot at or past the pivot count) closes it at the node's upper
bound.  Fuel bounds the depth. -/
def subtree_ranges (t : MTree) (enode min max : Nat) :
    Nat → List (Nat × Nat × Nat)
  | 0 => []
  | fuel + 1 =>
    let type := mte_node_type enode
    ((List.range (mt_slots type)).foldl
      (fun (acc : List (Nat × Nat × Nat) × Nat × Bool) i =>
        let (rs, pstart, stop) := acc
        if stop then acc
        else
          let pend := if i < mt_pivots type then _mte_get_pivot t enode i type
                      else max
          let pend := if pend = 0 ∧ i ≠ 0 then max else pend
          let v := _mte_get_rcu_slot t enode i type
          let rs :=
            if ma_is_leaf type then rs ++ [(pstart, pend, v)]
            else if v ≠ 0 then rs ++ subtree_ranges t v pstart pend fuel
            else rs ++ [(pstart, pend, 0)]
          (rs, pend + 1, pend ≥ max)) ([], min, false)).1

/-- Spec-side definition for claim C6, following the spec's words: the
true maximum empty (NULL) sub-range within a subtree is the longest run
of consecutive indices all mapping to NULL, i.e. the maximum combined
width of adjacent NULL leaf ranges. -/
def true_max_empty_gap (t : MTree) (enode min max : Nat) : Nat :=
  ((subtree_ranges t enode min max (walkFuel t)).foldl
    (fun (acc : Nat × Nat) r =>
      let (s, e, v) := r
      if v = 0 then
        let run := acc.2 + (e - s + 1)
        (Nat.max acc.1 run, run)
      else (acc.1, 0)) (0, 0)).1

/-- The stores of the C6 counterexample, in order: `(first, last, entry)`
with entry `0` for a NULL (erase) store. -/
def c6_ops : List (Nat × Nat × Nat) :=
  [(493, 537, 0), (61, 177, 14560), (298, 372, 11344), (340, 347, 16184),
   (452, 454, 12432), (419, 421, 11920), (193, 245, 15648), (161, 163, 0)]

/-- The allocation-mode tree built by the C6 stores; `none` if any store
fails or returns nonzero. -/
def c6_run : Option MTree :=
  c6_ops.foldl (fun acc op =>
    match acc with
    | none => none
    | some t =>
      match mtree_store_range t op.1 op.2.1 op.2.2 with
      | none => none
      | some (r, t2) => if r = 0 then some t2 else none)
    (some mtEmptyAlloc)

/-- The stores of the C7 occupancy counterexample, in order:
`(first, last, entry)` with entry `0` for a NULL (erase) store.  Sixteen
singleton ranges split the root leaf into a height-2 tree of three
leaves; the final spanning NULL store consumes the middle of the tree. -/
def c7_ops : List (Nat × Nat × Nat) :=
  [(280, 283, 8512), (287, 290, 8520), (294, 297, 8528), (301, 304, 8536),
   (308, 311, 8544), (315, 318, 8552), (322, 325, 8560), (329, 332, 8568),
   (336, 339, 8576), (343, 346, 8584), (378, 381, 8624), (385, 388, 8632),
   (392, 395, 8640), (399, 402, 8648), (406, 409, 8656), (413, 416, 8664),
   (372, 458, 0)]

/-- The allocation-mode tree built by the C7 stores; `none` if any store
fails or returns nonzero. -/
def c7_run : Option MTree :=
  c7_ops.foldl (fun acc op =>
    match acc with
    | none => none
    | some t =>
      match mtree_store_range t op.1 op.2.1 op.2.2 with
      | none => none
      | some (r, t2) => if r = 0 then some t2 else none)
    (some mtEmptyAlloc)

/-- A cursor state for the `mas_pause` witness. -/
def c9sat : MaState := mkMas 0 ULONG_MAX

/-- Tree holding the zero sentinel at `[5, 5]` (with a NULL prefix
`[0, 4]`). -/
def c10_tree : MTree :=
  ((mtree_store_range mtEmpty 5 5 XA_ZERO_ENTRY).getD (0, mtEmpty)).2

/-!  Claim theorems. -/

/-- C1: the claim says `mtree_load(tree, i)` returns the value of the most
recent store covering `i` and NULL when no store covered `i`.  The code
violates this: after the single mutation `mtree_store_range(mt, 1, 1, A)`
on an empty tree — whose only store covers `[1, 1]` — `mtree_load(mt, 0)`
returns A, because `mas_root_expand` omits the NULL prefix pivot exactly
when `index == 1`, so the new entry's range becomes `[0, 1]`. -/
theorem c1_load_returns_entry_at_uncovered_index :
    (mtree_store_range mtEmpty 1 1 8192).map Prod.fst = some 0 ∧
    mtree_load c1_tree 1 = some 8192 ∧
    mtree_load c1_tree 2 = some 0 ∧
    mtree_load c1_tree 0 = some 8192 := by decide

/-- C2: the claim says forward allocation in an empty allocation-mode tree
over `[0, ULONG_MAX]` yields `s = 0` with a success (0) return.  The code
violates this: `mas_alloc`'s empty-tree branch root-expands the entry over
`[mas->index, mas->last] = [0, ULONG_MAX - size]` and returns that pivot
truncated to `int`, never writing `*startp`; for size 16 the call returns
`(int)(ULONG_MAX - 16) = -17` and an entry covering `[0, ULONG_MAX - 16]`
(index 100 reads back the entry instead of NULL). -/
theorem c2_alloc_range_empty_tree_wrong_result :
    c2_res.map (fun p => (p.1, p.2.1)) = some (-17, none) ∧
    mtree_load c2_tree 100 = some 8192 ∧
    mtree_load c2_tree 16 = some 8192 := by decide

/-- C3 counterexample: at a leaf whose max equals the write's `last`
(write `[5, 10]` into node `[0, 10]`), with a non-NULL entry, the claim's
classification (`spanClaimC3`, spanning regardless of the entry) says
spanning, but `mas_is_span_wr` classifies the write as not spanning
because of its `entry && mas->last == mas->max` test. -/
theorem c3_span_claim_false_at_leaf_end :
    spanClaimC3 c3mas 10 = true ∧
    (mas_is_span_wr c3mas 10 8192).1 = false := by decide

/-- C3 amended: with no spanning ancestor recorded, `mas_is_span_wr`
classifies a write as spanning exactly when the slot pivot does not pass
the write's `last`, the ULONG_MAX whole-node exception does not apply,
and the entry-at-boundary exception does not apply: at a leaf the write
must reach the node's max and either the entry is NULL or the write goes
strictly past the max; at an internal node either the entry is NULL or
the write goes strictly past the slot pivot. -/
theorem c3_mas_is_span_wr_characterization (mas : MaState)
    (piv entry : Nat) (h : mas.span_enode = 0) :
    (mas_is_span_wr mas piv entry).1 = true ↔
      (piv ≤ mas.last ∧
       ¬ (mas.last = ULONG_MAX ∧ mas.min ≤ mas.index ∧
          mas.last = mas.max) ∧
       (if mte_is_leaf mas.node then
          mas.max ≤ mas.last ∧ (entry = 0 ∨ mas.max < mas.last)
        else entry = 0 ∨ piv < mas.last)) := by
  simp only [mas_is_span_wr, h]
  split_ifs <;> simp_all <;> omega

/-- C3 amended, witness: the characterization applied at the concrete
state of the counterexample with a NULL entry. -/
theorem c3_mas_is_span_wr_characterization_witness :
    c3mas.span_enode = 0 ∧
    ((mas_is_span_wr c3mas 10 0).1 = true ↔
      (10 ≤ c3mas.last ∧
       ¬ (c3mas.last = ULONG_MAX ∧ c3mas.min ≤ c3mas.index ∧
          c3mas.last = c3mas.max) ∧
       (if mte_is_leaf c3mas.node then
          c3mas.max ≤ c3mas.last ∧ (0 = 0 ∨ c3mas.max < c3mas.last)
        else 0 = 0 ∨ 10 < c3mas.last))) :=
  ⟨rfl, c3_mas_is_span_wr_characterization c3mas 10 0 rfl⟩

/-- C4: the claim says every insert over a range intersecting an occupied
range returns -EEXIST and leaves the tree unchanged.  The code violates
this for a root-pointer tree: after `mtree_insert(mt, 0, A)` (root holds A
at `[0, 0]`), `mtree_insert_range(mt, 0, 5, B)` intersects the occupied
`[0, 0]` yet returns 0 and replaces A by B over `[0, 5]`, because
`ma_root_ptr` only honours the no-overwrite flag when `last == 0` and
otherwise calls `mas_root_expand`, which installs the new entry over the
old one. -/
theorem c4_insert_over_root_entry_overwrites :
    (mtree_insert mtEmpty 0 8192).map Prod.fst = some 0 ∧
    mtree_load c4_t1 0 = some 8192 ∧
    c4_res.map Prod.fst = some 0 ∧
    mtree_load c4_t2 0 = some 12288 ∧
    mtree_load c4_t2 5 = some 12288 := by decide

/-- C5 counterexample: the reserved entry 2050 (`mt_is_reserved`: below
4096 with the internal tag) is accepted and stored by both
`mtree_store_range` and `mtree_insert_range` — their only validation is
`xa_is_advanced`, which holds just for internal values up to the retry
sentinel 1026 — refuting the claim that every reserved entry faults. -/
theorem c5_reserved_entry_stored :
    mt_is_reserved 2050 = true ∧
    xa_is_advanced 2050 = false ∧
    (mtree_store_range mtEmpty 10 20 2050).map Prod.fst = some 0 ∧
    mtree_load c5_tree 15 = some 2050 ∧
    (mtree_insert_range mtEmpty 10 20 2050).map Prod.fst = some 0 := by
  decide

/-- C5 amended: `mtree_store_range` and `mtree_insert_range` reject an
advanced-sentinel entry (an internal value at or below the retry sentinel)
with -EINVAL before touching the tree; reserved entries that are not
advanced are not validated. -/
theorem c5_advanced_entry_rejected (t : MTree) (first last e : Nat)
    (h : xa_is_advanced e = true) :
    mtree_store_range t first last e = some (-22, t) ∧
    mtree_insert_range t first last e = some (-22, t) := by
  rw [mtree_store_range, mtree_insert_range, h]
  exact ⟨rfl, rfl⟩

/-- C5 amended, witness: the retry sentinel itself is rejected by both
entry points. -/
theorem c5_advanced_entry_rejected_witness :
    xa_is_advanced XA_RETRY_ENTRY = true ∧
    mtree_store_range mtEmpty 0 0 XA_RETRY_ENTRY = some (-22, mtEmpty) ∧
    mtree_insert_range mtEmpty 0 0 XA_RETRY_ENTRY = some (-22, mtEmpty) :=
  ⟨by decide,
   (c5_advanced_entry_rejected mtEmpty 0 0 XA_RETRY_ENTRY (by decide)).1,
   (c5_advanced_entry_rejected mtEmpty 0 0 XA_RETRY_ENTRY (by decide)).2⟩

set_option maxRecDepth 100000 in
/-- Claim C6: "In allocation mode, after every public mutation, for every
internal node and every slot i, the recorded gap[i] equals the true
maximum empty (NULL) sub-range within the subtree referenced by slot[i]
(or the slot's full width when the slot is NULL)."  Refuted: after the
eight successful stores of `c6_ops` the root is an internal alloc node
whose slot 1 covers `[348, ULONG_MAX]` and refers to a leaf holding three
adjacent NULL ranges `[455,492]`, `[493,537]` and `[538, ULONG_MAX]`; the
recorded gap is `2^64 - 538` (the width of the single widest NULL slot)
while the true maximum empty sub-range is `2^64 - 455`, because
`mas_leaf_max_gap` computes per-slot widths and never coalesces adjacent
NULL slots. -/
theorem c6_gap_misses_adjacent_null_slots :
    (c6_run.map (fun t =>
      (xa_is_node t.ma_root,
       mte_is_leaf (mte_get_rcu_slot t (mte_safe_root t.ma_root) 1),
       mte_get_pivot t (mte_safe_root t.ma_root) 0,
       mte_get_gap t (mte_safe_root t.ma_root) 1,
       true_max_empty_gap t
         (mte_get_rcu_slot t (mte_safe_root t.ma_root) 1) 348
         ULONG_MAX))) =
      some (true, true, 347, 2 ^ 64 - 538, 2 ^ 64 - 455) ∧
    (2 ^ 64 - 538 : Nat) ≠ 2 ^ 64 - 455 := by
  exact ⟨by decide, by decide⟩

set_option maxRecDepth 100000 in
/-- C7 counterexample, refuting both clauses of the claim.  Occupancy
clause: after the seventeen successful stores of `c7_ops` (the last a
spanning NULL store), the root is an internal node with two children and
its slot-1 child is a non-root leaf (so it has a sibling and the
lone-leaf exception does not apply) holding only 5 occupied slots — of
which just 2 carry non-NULL entries — although `mt_min_slots` of
`maple_leaf_64` is 6: `mas_spanning_store` stages the boundary leaf's
data with no sufficiency check and `mas_spanning_rebalance` only tests
`mast_sufficient` against the parent-level big node, so the first split
phase emits the undersized leaf.  Table clause: `maple_arange_64` is a
third variant whose minimum occupancy is lowered below `max_slots / 2`
(to `max_slots / 2 - 1` in the NODE256 configuration), refuting the
claim that only leaf-64 and range-64 are lowered and every other
variant's minimum equals `max_slots / 2`. -/
theorem c7_undersized_node_and_arange64_min :
    (c7_run.map (fun t =>
      (xa_is_node t.ma_root,
       mte_is_leaf (mte_get_rcu_slot t (mte_safe_root t.ma_root) 1),
       mte_is_root t (mte_get_rcu_slot t (mte_safe_root t.ma_root) 1),
       mas_data_end t
         { mkMas 0 0 with node := mte_safe_root t.ma_root } + 1))) =
      some (true, true, false, 2) ∧
    (c7_run.map (fun t =>
      (mas_data_end t
         { mkMas 0 0 with
           node := mte_get_rcu_slot t (mte_safe_root t.ma_root) 1 } + 1,
       (List.range 16).countP
         (fun i =>
           mte_get_rcu_slot t
             (mte_get_rcu_slot t (mte_safe_root t.ma_root) 1) i ≠ 0),
       mt_min_slots (mte_node_type
         (mte_get_rcu_slot t (mte_safe_root t.ma_root) 1))))) =
      some (5, 2, 6) ∧
    (5 : Nat) < 6 ∧
    mt_min_slots .maple_arange_64 < mt_slots .maple_arange_64 / 2 ∧
    mt_min_slots .maple_arange_64 = mt_slots .maple_arange_64 / 2 - 1 ∧
    MapleType.maple_arange_64 ≠ .maple_leaf_64 ∧
    MapleType.maple_arange_64 ≠ .maple_range_64 := by
  exact ⟨by decide, by decide, by decide, by decide, by decide,
         by decide, by decide⟩

/-- C7 amended: the minimum-occupancy table lowers exactly three variants
below `max_slots / 2`: leaf-64 and range-64 to `max_slots / 2 - 2` and
arange-64 to `max_slots / 2 - 1`; every other variant's minimum equals
`max_slots(variant) / 2`. -/
theorem c7_mt_min_slots_characterization (t : MapleType) :
    mt_min_slots t =
      (if t = .maple_leaf_64 ∨ t = .maple_range_64 then mt_slots t / 2 - 2
       else if t = .maple_arange_64 then mt_slots t / 2 - 1
       else mt_slots t / 2) := by
  cases t <;> decide

/-- C8: the claim says bit 1 of the flags word is the RCU-mode flag tested
by `mas_in_rcu` and that toggling RCU mode never alters the cached height.
The code violates this: `MAPLE_USE_RCU` is the value 2 (bit 1, as the
header comment documents), but `mas_in_rcu` tests and `mt_set_in_rcu` sets
`1 << MAPLE_USE_RCU` = bit 2 — the lowest height bit — so with all-zero
flags, enabling RCU changes `mt_height` from 0 to 1, the in-RCU predicate
ignores bit 1, and `mt_clear_in_rcu` on flags 6 (doc-RCU bit plus height
1) clears the height bit instead. -/
theorem c8_rcu_toggles_corrupt_height :
    mas_in_rcu_flags MAPLE_USE_RCU = false ∧
    mt_set_in_rcu_flags 0 = 4 ∧
    mas_in_rcu_flags 4 = true ∧
    mt_height 0 = 0 ∧
    mt_height (mt_set_in_rcu_flags 0) = 1 ∧
    mt_height 6 = 1 ∧
    mt_clear_in_rcu_flags 6 = 2 ∧
    mt_height (mt_clear_in_rcu_flags 6) = 0 ∧
    MAPLE_HEIGHT_MASK &&& (1 <<< MAPLE_USE_RCU) ≠ 0 := by decide

/-- C9: `mas_pause` with `last < ULONG_MAX` resets the node to `MAS_START`
(the next walk restarts from the root) and sets `index = last = previous
last + 1`, leaving every other field unchanged; with `last == ULONG_MAX`
it moves the node to the exhausted sentinel `MAS_NONE` and changes nothing
else. -/
theorem c9_mas_pause_spec (mas : MaState) :
    (mas.last < ULONG_MAX →
      mas_pause mas =
        { mas with node := MAS_START, index := mas.last + 1,
                   last := mas.last + 1 }) ∧
    (mas.last = ULONG_MAX →
      mas_pause mas = { mas with node := MAS_NONE }) := by
  constructor
  · intro h
    have hlt : mas.last + 1 < W := by
      have : ULONG_MAX + 1 = W := by simp [ULONG_MAX, W]
      omega
    simp [mas_pause, mas_reset, Nat.mod_eq_of_lt hlt, Nat.ne_of_lt h]
  · intro h
    simp [mas_pause, h]

/-- C9 witness: `mas_pause` applied at `last = 3` and at the saturated
`last = ULONG_MAX`. -/
theorem c9_mas_pause_spec_witness :
    (mkMas 3 3).last < ULONG_MAX ∧
    mas_pause (mkMas 3 3) =
      { mkMas 3 3 with node := MAS_START, index := 4, last := 4 } ∧
    mas_pause c9sat = { c9sat with node := MAS_NONE } :=
  ⟨by decide, (c9_mas_pause_spec (mkMas 3 3)).1 (by decide),
   (c9_mas_pause_spec c9sat).2 rfl⟩

/-- C10: whenever the walk of the public lookup finds the zero sentinel as
the entry of the range containing the index, `mtree_load` returns NULL, so
a zero-sentinel entry is indistinguishable from an empty range at the
public interface. -/
theorem c10_load_zero_sentinel_is_null (t : MTree) (i : Nat)
    (h : Option.map Prod.fst (mas_load t (mkMas i i)) =
         some XA_ZERO_ENTRY) :
    mtree_load t i = some 0 := by
  unfold mtree_load
  cases hm : mas_load t (mkMas i i) with
  | none => rw [hm] at h; simp at h
  | some p =>
      rw [hm] at h
      have hp : p.1 = XA_ZERO_ENTRY := by
        simpa using h
      simp [hp, xa_is_zero]

/-- C10 witness: a tree actually holding the zero sentinel at `[5, 5]`
(stored through the public interface) loads as NULL at index 5. -/
theorem c10_load_zero_sentinel_is_null_witness :
    Option.map Prod.fst (mas_load c10_tree (mkMas 5 5)) =
      some XA_ZERO_ENTRY ∧
    mtree_load c10_tree 5 = some 0 :=
  ⟨by decide, c10_load_zero_sentinel_is_null c10_tree 5 (by decide)⟩

end MapleCheck
